import Mathlib

/-!
# Cabineato geometry pipeline — verification development

Shallow embedding of the cabinet-geometry generation pipeline
(`src/lib/geometry/*`, `src/lib/types/*`) and proofs about it.

Conventions of the embedding:
* JavaScript numbers are modelled as exact rationals (`ℚ`); every arithmetic
  operation used by the sources (`+ - * /`, `Math.floor`, `Math.max`) is exact
  on the rationals, so the rational model agrees with the float code on all
  quantities the theorems mention (no catastrophic rounding is involved).
* The dogbone processor calls `Math.sqrt`, so that one module is modelled over
  the reals (`ℝ`) with `Real.sqrt`; see the dogbone section below.
* Fields that the TypeScript code reads with `?? default` or `?.` are modelled
  as `Option`; required fields are plain.
* Numeric rendering inside validation-error strings is `toString` on `ℚ`
  (integers print identically to JavaScript; no theorem depends on the exact
  rendering of a non-integer).
-/

/-! ## Data model (`src/lib/types/assembly.ts`) -/

/-- 3D vector `[x, y, z]` (dimensions `[w, h, d]` or positions). -/
structure Vec3 where
  x : ℚ
  y : ℚ
  z : ℚ
deriving DecidableEq

/-- 2D position `[x, y]` in a component's local cutting plane. -/
abbrev Vector2 : Type := ℚ × ℚ

/-- Purposes carried by features (union of the purpose strings used anywhere
in the geometry sources). -/
inductive FeaturePurpose where
  | shelf_pin
  | assembly
  | hardware
  | drawer_pull
  | shelf_runner
  | slide_mount
  | dado
  | drawer_bottom
  | back_panel
  | fixed_shelf
deriving DecidableEq

/-- Which corner a notch is anchored on. -/
inductive NotchCorner where
  | bottom_left
  | bottom_right
  | top_left
  | top_right
deriving DecidableEq

/-- `Feature` tagged union: `Hole / Countersink / Slot / Notch`. -/
inductive Feature where
  | hole (diameter : ℚ) (depth : ℚ) (pos : Vector2) (purpose : FeaturePurpose)
  | countersink (pilotDiameter : ℚ) (countersinkDiameter : ℚ) (pilotDepth : ℚ)
      (countersinkDepth : ℚ) (pos : Vector2) (purpose : FeaturePurpose)
  | slot (width : ℚ) (depth : ℚ) (path : List Vector2) (purpose : FeaturePurpose)
  | notch (width : ℚ) (height : ℚ) (pos : Vector2) (corner : NotchCorner)
deriving DecidableEq

/-- CNC layer names. -/
inductive CNCLayer where
  | OUTSIDE_CUT
  | DRILL_5MM
  | DRILL_3MM
  | DRILL_8MM
  | DRILL_35MM
  | COUNTERSINK
  | POCKET_DADO
deriving DecidableEq

/-- Component role within the assembly. -/
inductive ComponentRole where
  | side_panel_left
  | side_panel_right
  | top_panel
  | bottom_panel
  | back_panel
  | fixed_shelf
  | adjustable_shelf
  | shelf
  | drawer_front
  | drawer_side
  | drawer_back
  | drawer_bottom
  | toe_kick_panel
deriving DecidableEq

/-- A single panel / part. -/
structure Component where
  id : String
  label : String
  role : ComponentRole
  dimensions : Vec3
  position : Vec3
  rotation : Vec3
  features : List Feature
  layer : CNCLayer
  materialThickness : ℚ
deriving DecidableEq

/-- Global cabinet dimensions in mm. -/
structure GlobalBounds where
  w : ℚ
  h : ℚ
  d : ℚ
deriving DecidableEq

/-- Primary material. -/
structure MaterialConfig where
  thickness : ℚ
  kerf : ℚ
deriving DecidableEq

/-- Secondary material for backs / drawer bottoms / fixed shelves.
The geometry code reads all three fields through `?.`/truthiness checks,
so they are modelled as `Option`. -/
structure SecondaryMaterialConfig where
  backPanelThickness : Option ℚ
  drawerBottomThickness : Option ℚ
  fixedShelfThickness : Option ℚ
deriving DecidableEq

/-- Toolpath compensation mode. -/
inductive CompensationMode where
  | outside
  | inside
  | center
deriving DecidableEq

/-- CNC machining settings. -/
structure MachiningConfig where
  bitDiameter : ℚ
  compensation : CompensationMode
deriving DecidableEq

/-- Back-panel attachment type. -/
inductive BackPanelType where
  | applied
  | inset
  | none
deriving DecidableEq

/-- Back panel configuration. -/
structure BackPanelConfig where
  type : BackPanelType
  thickness : ℚ
  dadoDepth : Option ℚ
  insetDistance : Option ℚ
deriving DecidableEq

/-- Adjustable (System 32) shelf configuration. -/
structure AdjustableShelfConfig where
  enabled : Bool
  count : ℕ
  frontSetback : Option ℚ
  rearSetback : Option ℚ
deriving DecidableEq

/-- Fixed-shelf (dado) configuration. -/
structure FixedShelfConfig where
  enabled : Bool
  positions : List ℚ
  dadoDepth : Option ℚ
  useSecondaryMaterial : Bool
deriving DecidableEq

/-- Shelf-runner configuration. -/
structure ShelfRunnerConfig where
  enabled : Bool
  positions : List ℚ
  frontSetback : Option ℚ
  rearSetback : Option ℚ
  holeDiameter : Option ℚ
  holesPerRunner : Option ℕ
deriving DecidableEq

/-- Combined shelf configuration (the canonical nested shape; the legacy flat
shape the sources also tolerate is the `adjustable` record alone and is not
separately representable in the typed embedding). -/
structure ShelfConfig where
  adjustable : AdjustableShelfConfig
  fixed : FixedShelfConfig
  runners : ShelfRunnerConfig
deriving DecidableEq

/-- Drawer pull hole type. -/
inductive DrawerPullType where
  | none
  | single
  | double
deriving DecidableEq

/-- Horizontal position rule for drawer pulls: `center`, or a numeric offset
from center. -/
inductive HorizontalPosition where
  | center
  | offset (v : ℚ)
deriving DecidableEq

/-- Drawer pull pre-drill configuration. -/
structure DrawerPullConfig where
  type : DrawerPullType
  holeDiameter : Option ℚ
  holeSpacing : Option ℚ
  verticalOffset : Option ℚ
  horizontalPosition : HorizontalPosition
deriving DecidableEq

/-- Drawer configuration. -/
structure DrawerConfig where
  enabled : Bool
  count : ℕ
  slideWidth : ℚ
  overlayAmount : ℚ
  pullHoles : DrawerPullConfig
deriving DecidableEq

/-- Toe kick configuration. -/
structure ToeKickConfig where
  enabled : Bool
  height : ℚ
  depth : ℚ
deriving DecidableEq

/-- Assembly pre-drill configuration. -/
structure AssemblyPredrillConfig where
  enabled : Bool
  countersink : Bool
  pilotDiameter : Option ℚ
  countersinkDiameter : Option ℚ
  edgeDistance : Option ℚ
  screwSpacing : Option ℚ
deriving DecidableEq

/-- Slide hardware pre-drill configuration. -/
structure SlidePredrillConfig where
  enabled : Bool
  holeDiameter : Option ℚ
  mountingHeight : Option ℚ
  frontOffset : Option ℚ
  holeSpacing : Option ℚ
  holesPerSlide : Option ℕ
deriving DecidableEq

/-- The `features` sub-object of the root configuration. -/
structure FeaturesConfig where
  shelves : ShelfConfig
  drawers : DrawerConfig
  toeKick : ToeKickConfig
deriving DecidableEq

/-- The `predrills` sub-object of the root configuration. -/
structure PredrillsConfig where
  assembly : AssemblyPredrillConfig
  slides : SlidePredrillConfig
deriving DecidableEq

/-- Root configuration object (`AssemblyConfig`). -/
structure AssemblyConfig where
  globalBounds : GlobalBounds
  material : MaterialConfig
  secondaryMaterial : SecondaryMaterialConfig
  machining : MachiningConfig
  backPanel : BackPanelConfig
  features : FeaturesConfig
  predrills : PredrillsConfig
deriving DecidableEq

/-- Build metadata.  The source also stamps `generatedAt: new Date().toISOString()`,
an impure clock read that has no counterpart in the pure embedding. -/
structure AssemblyMetadata where
  version : String
deriving DecidableEq

/-- Output of the geometry engine. -/
structure Assembly where
  config : AssemblyConfig
  components : List Component
  interiorBounds : GlobalBounds
  metadata : AssemblyMetadata
deriving DecidableEq

/-! ## Constants (`src/lib/types/constants.ts`) -/

namespace SYSTEM_32

def HOLE_DIAMETER : ℚ := 5

def HOLE_SPACING : ℚ := 32

def FRONT_SETBACK : ℚ := 37

def REAR_SETBACK : ℚ := 37

def VERTICAL_MARGIN : ℚ := 50

end SYSTEM_32

namespace MATERIAL_THICKNESSES

def HALF_INCH : ℚ := 12.7

def QUARTER_INCH : ℚ := 6.35

def MDF_6MM : ℚ := 6

end MATERIAL_THICKNESSES

namespace DRAWER_DEFAULTS

def SLIDE_CLEARANCE : ℚ := 12.7

def FULL_OVERLAY : ℚ := 19

def MIN_HEIGHT : ℚ := 50

end DRAWER_DEFAULTS

namespace DRAWER_PULL_DEFAULTS

def HOLE_DIAMETER : ℚ := 5

def SPACING_96MM : ℚ := 96

def VERTICAL_OFFSET : ℚ := 32

end DRAWER_PULL_DEFAULTS

namespace ASSEMBLY_PREDRILL_DEFAULTS

def PILOT_DIAMETER : ℚ := 3

def COUNTERSINK_DIAMETER : ℚ := 8

def EDGE_DISTANCE : ℚ := 25

def SCREW_SPACING : ℚ := 200

end ASSEMBLY_PREDRILL_DEFAULTS

namespace SLIDE_HARDWARE_DEFAULTS

def HOLE_DIAMETER : ℚ := 4

def FRONT_OFFSET : ℚ := 37

def HOLE_SPACING : ℚ := 32

def HOLES_PER_SLIDE : ℕ := 3

end SLIDE_HARDWARE_DEFAULTS

namespace SHELF_RUNNER_DEFAULTS

def HOLE_DIAMETER : ℚ := 4

def FRONT_SETBACK : ℚ := 50

def REAR_SETBACK : ℚ := 50

def HOLES_PER_RUNNER : ℕ := 2

end SHELF_RUNNER_DEFAULTS

namespace DADO_DEFAULTS

def MIN_DEPTH : ℚ := 6

end DADO_DEFAULTS

namespace TOLERANCES

def SHELF_CLEARANCE : ℚ := 1

end TOLERANCES

namespace BACK_PANEL_DEFAULTS

def DADO_DEPTH : ℚ := 6

def INSET_DISTANCE : ℚ := 10

end BACK_PANEL_DEFAULTS

/-- Version string stamped by the assembly builder. -/
def BUILDER_VERSION : String := "0.1.0"

/-! ## Shared derived quantities

The generators recompute these inline from the root configuration; the
definitions below name those recurring inline expressions once so theorems can
refer to them. -/

/-- `features.toeKick.enabled ? features.toeKick.height : 0` — the inline
expression every generator uses for the toe-kick offset. -/
def toeKickHeightOf (config : AssemblyConfig) : ℚ :=
  if config.features.toeKick.enabled then config.features.toeKick.height else 0

/-- `backPanel.dadoDepth ?? BACK_PANEL_DEFAULTS.DADO_DEPTH`. -/
def backDadoDepthOf (config : AssemblyConfig) : ℚ :=
  config.backPanel.dadoDepth.getD BACK_PANEL_DEFAULTS.DADO_DEPTH

/-- `backPanel.insetDistance ?? BACK_PANEL_DEFAULTS.INSET_DISTANCE`. -/
def backInsetDistanceOf (config : AssemblyConfig) : ℚ :=
  config.backPanel.insetDistance.getD BACK_PANEL_DEFAULTS.INSET_DISTANCE

/-! ## Carcass generator (`src/lib/geometry/carcass.ts`) -/

/-- Which side panel a side-dependent generator is producing for. -/
inductive Side where
  | left
  | right
deriving DecidableEq

/-- `generateAssemblyPredrillsForEdge`: evenly spaced pilot holes (plus optional
countersinks) along one edge. -/
def generateAssemblyPredrillsForEdge (edgeLength edgeDistance : ℚ)
    (config : AssemblyPredrillConfig) : List Feature :=
  if !config.enabled then []
  else
    let pilotDiameter := config.pilotDiameter.getD ASSEMBLY_PREDRILL_DEFAULTS.PILOT_DIAMETER
    let countersinkDiameter :=
      config.countersinkDiameter.getD ASSEMBLY_PREDRILL_DEFAULTS.COUNTERSINK_DIAMETER
    let screwSpacing := config.screwSpacing.getD ASSEMBLY_PREDRILL_DEFAULTS.SCREW_SPACING
    let edgeOffset := config.edgeDistance.getD ASSEMBLY_PREDRILL_DEFAULTS.EDGE_DISTANCE
    let startPos := edgeOffset
    let endPos := edgeLength - edgeOffset
    let availableLength := endPos - startPos
    let numIntervals : ℤ := max 1 ⌊availableLength / screwSpacing⌋
    let actualSpacing := availableLength / (numIntervals : ℚ)
    (List.range (numIntervals.toNat + 1)).flatMap fun i =>
      let xPos := startPos + (i : ℚ) * actualSpacing
      Feature.hole pilotDiameter 0 (xPos, edgeDistance) .assembly ::
        (if config.countersink then
          [Feature.countersink pilotDiameter countersinkDiameter 0
            (countersinkDiameter / 2) (xPos, edgeDistance) .assembly]
        else [])

/-- `generateSidePanelAssemblyPredrills`: holes along the bottom and top edges
of a side panel.  (The `isLeftPanel` parameter is accepted and ignored, exactly
as in the source.) -/
def generateSidePanelAssemblyPredrills (config : AssemblyConfig)
    (panelHeight panelDepth : ℚ) (_isLeftPanel : Bool) : List Feature :=
  let predrills := config.predrills.assembly
  if !predrills.enabled then []
  else
    let thickness := config.material.thickness
    let toeKickHeight := toeKickHeightOf config
    let bottomEdgeY := toeKickHeight + thickness / 2
    let topEdgeY := panelHeight - thickness / 2
    generateAssemblyPredrillsForEdge panelDepth bottomEdgeY predrills ++
      generateAssemblyPredrillsForEdge panelDepth topEdgeY predrills

/-- Loop body of `generateSlidePredrillsForDrawer`: place holes at
`frontOffset + i * holeSpacing`, stopping (JS `break`) at the first hole whose
x exceeds `panelDepth - 20`.  Structural recursion on the number of holes
still to place. -/
def slidePredrillHolesLoop (frontOffset holeSpacing slideY diameter panelDepth : ℚ) :
    ℕ → ℕ → List Feature
  | 0, _ => []
  | n + 1, i =>
      let xPos := frontOffset + (i : ℚ) * holeSpacing
      if xPos > panelDepth - 20 then []
      else
        Feature.hole diameter 0 (xPos, slideY) .slide_mount ::
          slidePredrillHolesLoop frontOffset holeSpacing slideY diameter panelDepth n (i + 1)

/-- `generateSlidePredrillsForDrawer`: mounting holes for one drawer slide. -/
def generateSlidePredrillsForDrawer (drawerBottomY panelDepth : ℚ)
    (config : SlidePredrillConfig) : List Feature :=
  if !config.enabled then []
  else
    let diameter := config.holeDiameter.getD SLIDE_HARDWARE_DEFAULTS.HOLE_DIAMETER
    let frontOffset := config.frontOffset.getD SLIDE_HARDWARE_DEFAULTS.FRONT_OFFSET
    let holeSpacing := config.holeSpacing.getD SLIDE_HARDWARE_DEFAULTS.HOLE_SPACING
    let holesPerSlide := config.holesPerSlide.getD SLIDE_HARDWARE_DEFAULTS.HOLES_PER_SLIDE
    let slideY := drawerBottomY + config.mountingHeight.getD 0
    slidePredrillHolesLoop frontOffset holeSpacing slideY diameter panelDepth holesPerSlide 0

/-- The drawer front height recomputed inline by
`generateSidePanelSlidePredrills` from the panel height:
`((panelHeight - 2*thickness - toeKick) - (count-1)*3) / count`. -/
def slidePredrillDrawerFrontHeight (config : AssemblyConfig) (panelHeight : ℚ) : ℚ :=
  let thickness := config.material.thickness
  let toeKickHeight := toeKickHeightOf config
  let drawerCount := config.features.drawers.count
  let interiorHeight := panelHeight - 2 * thickness - toeKickHeight
  let drawerGap : ℚ := 3
  let totalGaps : ℚ := (drawerCount : ℚ) - 1
  let heightForDrawers := interiorHeight - totalGaps * drawerGap
  heightForDrawers / (drawerCount : ℚ)

/-- The drawer-opening bottom Y recomputed inline by
`generateSidePanelSlidePredrills` for drawer `i`:
`toeKickHeight + thickness + i * (drawerFrontHeight + 3)`. -/
def slidePredrillDrawerBottomY (config : AssemblyConfig) (panelHeight : ℚ) (i : ℕ) : ℚ :=
  toeKickHeightOf config + config.material.thickness +
    (i : ℚ) * (slidePredrillDrawerFrontHeight config panelHeight + 3)

/-- `generateSidePanelSlidePredrills`: slide mounting holes for every drawer. -/
def generateSidePanelSlidePredrills (config : AssemblyConfig)
    (panelHeight panelDepth : ℚ) : List Feature :=
  if !config.predrills.slides.enabled then []
  else if !(config.features.drawers.enabled && decide (0 < config.features.drawers.count)) then []
  else
    (List.range config.features.drawers.count).flatMap fun i =>
      generateSlidePredrillsForDrawer
        (slidePredrillDrawerBottomY config panelHeight i) panelDepth
        config.predrills.slides

/-- `generateLeftSidePanel`. -/
def generateLeftSidePanel (config : AssemblyConfig) : Component :=
  let thickness := config.material.thickness
  let panelHeight := config.globalBounds.h
  let panelDepth := config.globalBounds.d
  let notchFeatures : List Feature :=
    if config.features.toeKick.enabled then
      [Feature.notch config.features.toeKick.depth config.features.toeKick.height
        (0, 0) .bottom_left]
    else []
  { id := "side_panel_left"
    label := "Left Side Panel"
    role := .side_panel_left
    dimensions := ⟨thickness, panelHeight, panelDepth⟩
    position := ⟨0, 0, 0⟩
    rotation := ⟨0, 0, 0⟩
    features := notchFeatures ++
      generateSidePanelAssemblyPredrills config panelHeight panelDepth true ++
      generateSidePanelSlidePredrills config panelHeight panelDepth
    layer := .OUTSIDE_CUT
    materialThickness := thickness }

/-- `generateRightSidePanel`. -/
def generateRightSidePanel (config : AssemblyConfig) : Component :=
  let thickness := config.material.thickness
  let panelHeight := config.globalBounds.h
  let panelDepth := config.globalBounds.d
  let notchFeatures : List Feature :=
    if config.features.toeKick.enabled then
      [Feature.notch config.features.toeKick.depth config.features.toeKick.height
        (thickness - config.features.toeKick.depth, 0) .bottom_right]
    else []
  { id := "side_panel_right"
    label := "Right Side Panel"
    role := .side_panel_right
    dimensions := ⟨thickness, panelHeight, panelDepth⟩
    position := ⟨config.globalBounds.w - thickness, 0, 0⟩
    rotation := ⟨0, 0, 0⟩
    features := notchFeatures ++
      generateSidePanelAssemblyPredrills config panelHeight panelDepth false ++
      generateSidePanelSlidePredrills config panelHeight panelDepth
    layer := .OUTSIDE_CUT
    materialThickness := thickness }

/-- `generateTopPanel`: width deducted for the butt joint,
`GlobalWidth - 2 * MaterialThickness`. -/
def generateTopPanel (config : AssemblyConfig) : Component :=
  let thickness := config.material.thickness
  let panelWidth := config.globalBounds.w - 2 * thickness
  { id := "top_panel"
    label := "Top Panel"
    role := .top_panel
    dimensions := ⟨panelWidth, thickness, config.globalBounds.d⟩
    position := ⟨thickness, config.globalBounds.h - thickness, 0⟩
    rotation := ⟨0, 0, 0⟩
    features := []
    layer := .OUTSIDE_CUT
    materialThickness := thickness }

/-- `generateBottomPanel`: same width deduction; raised by the toe-kick height
when enabled. -/
def generateBottomPanel (config : AssemblyConfig) : Component :=
  let thickness := config.material.thickness
  let panelWidth := config.globalBounds.w - 2 * thickness
  { id := "bottom_panel"
    label := "Bottom Panel"
    role := .bottom_panel
    dimensions := ⟨panelWidth, thickness, config.globalBounds.d⟩
    position := ⟨thickness, if config.features.toeKick.enabled
      then config.features.toeKick.height else 0, 0⟩
    rotation := ⟨0, 0, 0⟩
    features := []
    layer := .OUTSIDE_CUT
    materialThickness := thickness }

/-- `calculateInteriorBounds`. -/
def calculateInteriorBounds (config : AssemblyConfig) : GlobalBounds :=
  let thickness := config.material.thickness
  { w := config.globalBounds.w - 2 * thickness
    h := config.globalBounds.h - 2 * thickness - toeKickHeightOf config
    d := config.globalBounds.d }

/-- `generateCarcass`: the four structural panels. -/
def generateCarcass (config : AssemblyConfig) : List Component :=
  [generateLeftSidePanel config, generateRightSidePanel config,
   generateTopPanel config, generateBottomPanel config]

/-- `validateCarcassConfig`: error strings, empty when the carcass is feasible. -/
def validateCarcassConfig (config : AssemblyConfig) : List String :=
  let thickness := config.material.thickness
  let w := config.globalBounds.w
  let h := config.globalBounds.h
  let d := config.globalBounds.d
  let interiorWidth := w - 2 * thickness
  let toeKickHeight := toeKickHeightOf config
  let interiorHeight := h - 2 * thickness - toeKickHeight
  (if interiorWidth <= 0 then
    ["Interior width would be " ++ toString interiorWidth ++ "mm. " ++
     "Material thickness (" ++ toString thickness ++ "mm x 2 = " ++
     toString (thickness * 2) ++ "mm) exceeds cabinet width (" ++ toString w ++ "mm)."]
  else []) ++
  (if interiorHeight <= 0 then
    ["Interior height would be " ++ toString interiorHeight ++ "mm. " ++
     "Combined thickness of top (" ++ toString thickness ++ "mm), bottom (" ++
     toString thickness ++ "mm), and toe kick (" ++ toString toeKickHeight ++
     "mm) exceeds cabinet height (" ++ toString h ++ "mm)."]
  else []) ++
  (if w < 100 then
    ["Cabinet width (" ++ toString w ++ "mm) is below minimum of 100mm."]
  else []) ++
  (if h < 100 then
    ["Cabinet height (" ++ toString h ++ "mm) is below minimum of 100mm."]
  else []) ++
  (if d < 100 then
    ["Cabinet depth (" ++ toString d ++ "mm) is below minimum of 100mm."]
  else []) ++
  (if thickness <= 0 then
    ["Material thickness must be positive, got " ++ toString thickness ++ "mm."]
  else []) ++
  (if thickness > 50 then
    ["Material thickness (" ++ toString thickness ++ "mm) exceeds maximum of 50mm."]
  else [])

/-! ## Back panel generator (`src/lib/geometry/backPanel.ts`) -/

/-- `getBackPanelThickness`: secondary material thickness when configured
(the source checks `!== undefined`), else `backPanel.thickness`. -/
def getBackPanelThickness (config : AssemblyConfig) : ℚ :=
  match config.secondaryMaterial.backPanelThickness with
  | some t => t
  | Option.none => config.backPanel.thickness

/-- `generateAppliedBackPanel`: full-width panel nailed to the rear. -/
def generateAppliedBackPanel (config : AssemblyConfig) : Component :=
  let thickness := getBackPanelThickness config
  let toeKickHeight := toeKickHeightOf config
  { id := "back_panel"
    label := "Back Panel (Applied)"
    role := .back_panel
    dimensions := ⟨config.globalBounds.w, config.globalBounds.h - toeKickHeight, thickness⟩
    position := ⟨0, toeKickHeight, config.globalBounds.d - thickness⟩
    rotation := ⟨0, 0, 0⟩
    features := []
    layer := .OUTSIDE_CUT
    materialThickness := thickness }

/-- `generateInsetBackPanel`: panel sized to seat inside the four dados,
inflated by `2 * dadoDepth` on each dado-bearing axis. -/
def generateInsetBackPanel (config : AssemblyConfig) : Component :=
  let carcassThickness := config.material.thickness
  let dadoDepth := backDadoDepthOf config
  let panelThickness := getBackPanelThickness config
  let toeKickHeight := toeKickHeightOf config
  let panelWidth := config.globalBounds.w - 2 * carcassThickness + 2 * dadoDepth
  let panelHeight :=
    config.globalBounds.h - 2 * carcassThickness - toeKickHeight + 2 * dadoDepth
  let insetDistance := backInsetDistanceOf config
  { id := "back_panel"
    label := "Back Panel (Inset)"
    role := .back_panel
    dimensions := ⟨panelWidth, panelHeight, panelThickness⟩
    position := ⟨carcassThickness - dadoDepth,
      toeKickHeight + carcassThickness - dadoDepth,
      config.globalBounds.d - insetDistance - panelThickness⟩
    rotation := ⟨0, 0, 0⟩
    features := []
    layer := .OUTSIDE_CUT
    materialThickness := panelThickness }

/-- `generateBackPanelDado`: the vertical dado slot injected into one side
panel for an inset back; `width` is the back-panel material thickness. -/
def generateBackPanelDado (config : AssemblyConfig) (_side : Side) : Feature :=
  let dadoDepth := backDadoDepthOf config
  let insetDistance := backInsetDistanceOf config
  let panelThickness := getBackPanelThickness config
  let toeKickHeight := toeKickHeightOf config
  let dadoX := config.globalBounds.d - insetDistance - panelThickness / 2
  Feature.slot panelThickness dadoDepth
    [(dadoX, toeKickHeight), (dadoX, config.globalBounds.h)] .dado

/-- Which horizontal panel a horizontal back dado is injected into. -/
inductive TopBottom where
  | top
  | bottom
deriving DecidableEq

/-- `generateHorizontalBackPanelDado`: the horizontal dado slot injected into
the top or bottom panel for an inset back. -/
def generateHorizontalBackPanelDado (config : AssemblyConfig) (_panel : TopBottom) : Feature :=
  let carcassThickness := config.material.thickness
  let dadoDepth := backDadoDepthOf config
  let insetDistance := backInsetDistanceOf config
  let panelThickness := getBackPanelThickness config
  let dadoY := config.globalBounds.d - insetDistance - panelThickness / 2
  Feature.slot panelThickness dadoDepth
    [(0, dadoY), (config.globalBounds.w - 2 * carcassThickness, dadoY)] .dado

/-- `generateBackPanel`: dispatch on the back-panel type. -/
def generateBackPanel (config : AssemblyConfig) : Option Component :=
  match config.backPanel.type with
  | .applied => some (generateAppliedBackPanel config)
  | .inset => some (generateInsetBackPanel config)
  | .none => Option.none

/-- `requiresDados`: an inset back needs dados on the carcass panels. -/
def requiresDados (config : AssemblyConfig) : Bool :=
  config.backPanel.type == .inset

/-- `validateBackPanelConfig`. -/
def validateBackPanelConfig (config : AssemblyConfig) : List String :=
  match config.backPanel.type with
  | .none => []
  | ty =>
    (if config.backPanel.thickness <= 0 then
      ["Back panel thickness must be positive, got " ++
       toString config.backPanel.thickness ++ "mm."]
    else []) ++
    (if ty == .inset then
      let dadoDepth := backDadoDepthOf config
      let insetDistance := backInsetDistanceOf config
      (if dadoDepth >= config.material.thickness then
        ["Dado depth (" ++ toString dadoDepth ++ "mm) must be less than material thickness (" ++
         toString config.material.thickness ++ "mm)."]
      else []) ++
      (if insetDistance < 0 then
        ["Inset distance must be non-negative, got " ++ toString insetDistance ++ "mm."]
      else []) ++
      (if insetDistance + config.backPanel.thickness > config.globalBounds.d then
        ["Inset distance (" ++ toString insetDistance ++ "mm) + back panel thickness (" ++
         toString config.backPanel.thickness ++ "mm) exceeds cabinet depth (" ++
         toString config.globalBounds.d ++ "mm)."]
      else [])
    else [])

/-! ## Shelf generator (`src/lib/geometry/shelves.ts`) -/

/-- Loop body of `generateHoleColumn` (`while y <= endY` with a fixed positive
step).  Fuel-based structural recursion; `generateHoleColumn` supplies fuel
strictly exceeding the number of loop iterations. -/
def holeColumnLoop (xPos spacing endY : ℚ) : ℕ → ℚ → List Vector2
  | 0, _ => []
  | n + 1, y =>
      if y <= endY then (xPos, y) :: holeColumnLoop xPos spacing endY n (y + spacing)
      else []

/-- `generateHoleColumn`: hole positions from `startY` up to `endY` at
`SYSTEM_32.HOLE_SPACING` (32 mm) intervals.  The loop runs at most
`(endY - startY)/32 + 1` times, which the fuel `⌊endY - startY⌋ + 2` exceeds
because the spacing is at least 1. -/
def generateHoleColumn (startY endY xPos : ℚ) : List Vector2 :=
  holeColumnLoop xPos SYSTEM_32.HOLE_SPACING endY (⌊endY - startY⌋ + 2).toNat startY

/-- `generateSidePanelShelfHoles`: two columns of System 32 shelf-pin holes on
a side panel.  (The `side` parameter is accepted and ignored, exactly as in
the source, which computes identical columns for both panels.) -/
def generateSidePanelShelfHoles (config : AssemblyConfig) (_side : Side) : List Feature :=
  let adjustable := config.features.shelves.adjustable
  if !adjustable.enabled then []
  else
    let thickness := config.material.thickness
    let h := config.globalBounds.h
    let d := config.globalBounds.d
    let toeKickHeight := toeKickHeightOf config
    let bottomPanelTop := toeKickHeight + thickness
    let topPanelBottom := h - thickness
    let startY := bottomPanelTop + SYSTEM_32.VERTICAL_MARGIN
    let endY := topPanelBottom - SYSTEM_32.VERTICAL_MARGIN
    if endY <= startY then []
    else
      let frontSetback := adjustable.frontSetback.getD SYSTEM_32.FRONT_SETBACK
      let rearSetback := adjustable.rearSetback.getD SYSTEM_32.REAR_SETBACK
      let frontColumnX := frontSetback
      let rearColumnX := d - rearSetback
      ((generateHoleColumn startY endY frontColumnX).map fun p =>
        Feature.hole SYSTEM_32.HOLE_DIAMETER 10 p .shelf_pin) ++
      ((generateHoleColumn startY endY rearColumnX).map fun p =>
        Feature.hole SYSTEM_32.HOLE_DIAMETER 10 p .shelf_pin)

/-- The fixed-shelf material thickness: the secondary material when
`useSecondaryMaterial` is set and `secondaryMaterial.fixedShelfThickness` is
configured and non-zero (the source reads it through JS truthiness), else the
primary thickness.  This inline rule appears identically in
`generateSidePanelFixedShelfDados` and `generateFixedShelves`. -/
def fixedShelfThicknessOf (config : AssemblyConfig) : ℚ :=
  match config.secondaryMaterial.fixedShelfThickness with
  | some s =>
      if config.features.shelves.fixed.useSecondaryMaterial && decide (s ≠ 0) then s
      else config.material.thickness
  | Option.none => config.material.thickness

/-- `fixedConfig.dadoDepth ?? DADO_DEFAULTS.MIN_DEPTH`. -/
def fixedDadoDepthOf (config : AssemblyConfig) : ℚ :=
  config.features.shelves.fixed.dadoDepth.getD DADO_DEFAULTS.MIN_DEPTH

/-- `generateSidePanelFixedShelfDados`: one horizontal dado slot per configured
fixed-shelf position; `width` is the shelf material thickness. -/
def generateSidePanelFixedShelfDados (config : AssemblyConfig) (_side : Side) :
    List Feature :=
  let fixedConfig := config.features.shelves.fixed
  if !fixedConfig.enabled || fixedConfig.positions.isEmpty then []
  else
    let d := config.globalBounds.d
    let thickness := config.material.thickness
    let shelfThickness := fixedShelfThicknessOf config
    let dadoDepth := fixedDadoDepthOf config
    let toeKickHeight := toeKickHeightOf config
    let frontOffset : ℚ := 10
    let rearOffset : ℚ := 10
    fixedConfig.positions.map fun position =>
      let dadoY := toeKickHeight + thickness + position
      Feature.slot shelfThickness dadoDepth
        [(frontOffset, dadoY), (d - rearOffset, dadoY)] .dado

/-- `generateSidePanelRunnerHoles`: evenly spaced runner mounting holes. -/
def generateSidePanelRunnerHoles (config : AssemblyConfig) (_side : Side) :
    List Feature :=
  let runnerConfig := config.features.shelves.runners
  if !runnerConfig.enabled || runnerConfig.positions.isEmpty then []
  else
    let d := config.globalBounds.d
    let thickness := config.material.thickness
    let toeKickHeight := toeKickHeightOf config
    let frontSetback := runnerConfig.frontSetback.getD SHELF_RUNNER_DEFAULTS.FRONT_SETBACK
    let rearSetback := runnerConfig.rearSetback.getD SHELF_RUNNER_DEFAULTS.REAR_SETBACK
    let holeDiameter := runnerConfig.holeDiameter.getD SHELF_RUNNER_DEFAULTS.HOLE_DIAMETER
    let holesPerRunner := runnerConfig.holesPerRunner.getD SHELF_RUNNER_DEFAULTS.HOLES_PER_RUNNER
    let runnerLength := d - frontSetback - rearSetback
    let holeSpacing := runnerLength / ((holesPerRunner : ℚ) - 1)
    runnerConfig.positions.flatMap fun position =>
      let runnerY := toeKickHeight + thickness + position
      (List.range holesPerRunner).map fun i =>
        Feature.hole holeDiameter 0 (frontSetback + (i : ℚ) * holeSpacing, runnerY)
          .shelf_runner

/-- `generateAdjustableShelves`: the shelf panels themselves (1 mm narrower
than the interior width). -/
def generateAdjustableShelves (config : AssemblyConfig) : List Component :=
  let adjustable := config.features.shelves.adjustable
  if !adjustable.enabled || decide (adjustable.count = 0) then []
  else
    let d := config.globalBounds.d
    let thickness := config.material.thickness
    let interior := calculateInteriorBounds config
    let shelfWidth := interior.w - TOLERANCES.SHELF_CLEARANCE
    let frontSetback := adjustable.frontSetback.getD SYSTEM_32.FRONT_SETBACK
    let shelfDepth :=
      if config.backPanel.type == .inset then
        d - frontSetback - config.backPanel.insetDistance.getD 10 -
          config.backPanel.thickness - 5
      else d - frontSetback - 10
    let toeKickHeight := toeKickHeightOf config
    let bottomPanelTop := toeKickHeight + thickness
    let topPanelBottom := config.globalBounds.h - thickness
    let availableHeight := topPanelBottom - bottomPanelTop
    let spacing := availableHeight / ((adjustable.count : ℚ) + 1)
    (List.range adjustable.count).map fun i =>
      { id := "adjustable_shelf_" ++ toString (i + 1)
        label := "Adjustable Shelf " ++ toString (i + 1)
        role := .adjustable_shelf
        dimensions := ⟨shelfWidth, thickness, shelfDepth⟩
        position := ⟨thickness + TOLERANCES.SHELF_CLEARANCE / 2,
          bottomPanelTop + spacing * ((i : ℚ) + 1), frontSetback⟩
        rotation := ⟨0, 0, 0⟩
        features := []
        layer := .OUTSIDE_CUT
        materialThickness := thickness }

/-- `generateFixedShelves`: fixed shelf panels, widened by `2 * dadoDepth` to
seat in both side dados. -/
def generateFixedShelves (config : AssemblyConfig) : List Component :=
  let fixedConfig := config.features.shelves.fixed
  if !fixedConfig.enabled || fixedConfig.positions.isEmpty then []
  else
    let d := config.globalBounds.d
    let thickness := config.material.thickness
    let interior := calculateInteriorBounds config
    let shelfThickness := fixedShelfThicknessOf config
    let dadoDepth := fixedDadoDepthOf config
    let shelfWidth := interior.w + 2 * dadoDepth
    let frontOffset : ℚ := 10
    let shelfDepth :=
      if config.backPanel.type == .inset then
        d - frontOffset - config.backPanel.insetDistance.getD 10 -
          config.backPanel.thickness - 5
      else d - frontOffset - 10
    let toeKickHeight := toeKickHeightOf config
    (List.enum fixedConfig.positions).map fun pi =>
      { id := "fixed_shelf_" ++ toString (pi.1 + 1)
        label := "Fixed Shelf " ++ toString (pi.1 + 1)
        role := .fixed_shelf
        dimensions := ⟨shelfWidth, shelfThickness, shelfDepth⟩
        position := ⟨thickness - dadoDepth, toeKickHeight + thickness + pi.2, frontOffset⟩
        rotation := ⟨0, 0, 0⟩
        features := []
        layer := .OUTSIDE_CUT
        materialThickness := shelfThickness }

/-- `generateShelves`: adjustable then fixed shelf panels. -/
def generateShelves (config : AssemblyConfig) : List Component :=
  generateAdjustableShelves config ++ generateFixedShelves config

/-- `validateShelfConfig`.  (The source's `count < 0` guard cannot fire on the
`ℕ`-valued count of the embedding and is omitted.) -/
def validateShelfConfig (config : AssemblyConfig) : List String :=
  let h := config.globalBounds.h
  let d := config.globalBounds.d
  let thickness := config.material.thickness
  let adjustable := config.features.shelves.adjustable
  let fixedConfig := config.features.shelves.fixed
  let runnerConfig := config.features.shelves.runners
  let toeKickHeight := toeKickHeightOf config
  let interiorHeight := h - 2 * thickness - toeKickHeight
  (if adjustable.enabled then
    let frontSetback := adjustable.frontSetback.getD SYSTEM_32.FRONT_SETBACK
    let rearSetback := adjustable.rearSetback.getD SYSTEM_32.REAR_SETBACK
    (if frontSetback < 0 then
      ["Front setback must be non-negative, got " ++ toString frontSetback ++ "mm."]
    else []) ++
    (if rearSetback < 0 then
      ["Rear setback must be non-negative, got " ++ toString rearSetback ++ "mm."]
    else []) ++
    (if frontSetback + rearSetback >= d then
      ["Combined setbacks (" ++ toString (frontSetback + rearSetback) ++
       "mm) exceed cabinet depth (" ++ toString d ++ "mm)."]
    else []) ++
    (let verticalSpace := (h - thickness) - (toeKickHeight + thickness) -
        2 * SYSTEM_32.VERTICAL_MARGIN
     if verticalSpace < SYSTEM_32.HOLE_SPACING then
      ["Not enough vertical space (" ++ toString verticalSpace ++
       "mm) for shelf pin holes. Need at least " ++
       toString SYSTEM_32.HOLE_SPACING ++ "mm."]
    else [])
  else []) ++
  (if fixedConfig.enabled then
    ((List.enum fixedConfig.positions).flatMap fun ip =>
      (if ip.2 < 0 then
        ["Fixed shelf position " ++ toString (ip.1 + 1) ++ " (" ++ toString ip.2 ++
         "mm) must be non-negative."]
      else []) ++
      (if ip.2 > interiorHeight then
        ["Fixed shelf position " ++ toString (ip.1 + 1) ++ " (" ++ toString ip.2 ++
         "mm) exceeds interior height (" ++ toString interiorHeight ++ "mm)."]
      else [])) ++
    (let dadoDepth := fixedDadoDepthOf config
     if dadoDepth > thickness / 2 then
      ["Dado depth (" ++ toString dadoDepth ++
       "mm) should not exceed half of material thickness (" ++
       toString (thickness / 2) ++ "mm)."]
    else [])
  else []) ++
  (if runnerConfig.enabled then
    (List.enum runnerConfig.positions).flatMap fun ip =>
      (if ip.2 < 0 then
        ["Shelf runner position " ++ toString (ip.1 + 1) ++ " (" ++ toString ip.2 ++
         "mm) must be non-negative."]
      else []) ++
      (if ip.2 > interiorHeight then
        ["Shelf runner position " ++ toString (ip.1 + 1) ++ " (" ++ toString ip.2 ++
         "mm) exceeds interior height (" ++ toString interiorHeight ++ "mm)."]
      else [])
  else [])

/-! ## Drawer generator (`src/lib/geometry/drawers.ts`) -/

/-- Drawer box material thickness (1/2" = 12.7 mm). -/
def DRAWER_BOX_THICKNESS : ℚ := MATERIAL_THICKNESSES.HALF_INCH

/-- Default drawer bottom thickness (1/4" = 6.35 mm). -/
def DEFAULT_DRAWER_BOTTOM_THICKNESS : ℚ := MATERIAL_THICKNESSES.QUARTER_INCH

/-- Dado depth for the drawer bottom. -/
def DRAWER_BOTTOM_DADO_DEPTH : ℚ := 6

/-- Distance from the bottom edge to the drawer-bottom dado. -/
def DRAWER_BOTTOM_DADO_OFFSET : ℚ := 12

/-- `getDrawerBottomThickness`:
`secondaryMaterial?.drawerBottomThickness ?? DEFAULT_DRAWER_BOTTOM_THICKNESS`. -/
def getDrawerBottomThickness (config : AssemblyConfig) : ℚ :=
  config.secondaryMaterial.drawerBottomThickness.getD DEFAULT_DRAWER_BOTTOM_THICKNESS

/-- `DrawerBoxDimensions`. -/
structure DrawerBoxDimensions where
  boxInteriorWidth : ℚ
  boxExteriorWidth : ℚ
  boxHeight : ℚ
  boxDepth : ℚ
  frontWidth : ℚ
  frontHeight : ℚ
deriving DecidableEq

/-- `calculateDrawerDimensions`.  (`drawerIndex` is accepted and ignored,
exactly as in the source.) -/
def calculateDrawerDimensions (config : AssemblyConfig) (_drawerIndex : ℕ)
    (totalDrawers : ℕ) : DrawerBoxDimensions :=
  let interior := calculateInteriorBounds config
  let slideWidth := config.features.drawers.slideWidth
  let overlayAmount := config.features.drawers.overlayAmount
  let boxExteriorWidth := interior.w - 2 * slideWidth
  let boxInteriorWidth := boxExteriorWidth - 2 * DRAWER_BOX_THICKNESS
  let boxDepth :=
    if config.backPanel.type == .inset then
      config.globalBounds.d - config.backPanel.insetDistance.getD 10 -
        config.backPanel.thickness - 20
    else config.globalBounds.d - 50
  let availableHeight := interior.h
  let drawerGap : ℚ := 3
  let totalGaps : ℚ := (totalDrawers : ℚ) - 1
  let heightForDrawers := availableHeight - totalGaps * drawerGap
  let drawerFrontHeight := heightForDrawers / (totalDrawers : ℚ)
  let boxHeight := max (drawerFrontHeight - 25) DRAWER_DEFAULTS.MIN_HEIGHT
  { boxInteriorWidth := boxInteriorWidth
    boxExteriorWidth := boxExteriorWidth
    boxHeight := boxHeight
    boxDepth := boxDepth
    frontWidth := interior.w + 2 * overlayAmount
    frontHeight := drawerFrontHeight }

/-- `generateDrawerPullHoles`. -/
def generateDrawerPullHoles (frontWidth frontHeight : ℚ)
    (pullConfig : DrawerPullConfig) : List Feature :=
  match pullConfig.type with
  | .none => []
  | ty =>
    let diameter := pullConfig.holeDiameter.getD DRAWER_PULL_DEFAULTS.HOLE_DIAMETER
    let verticalOffset := pullConfig.verticalOffset.getD DRAWER_PULL_DEFAULTS.VERTICAL_OFFSET
    let holeY := frontHeight - verticalOffset
    let centerX :=
      match pullConfig.horizontalPosition with
      | .center => frontWidth / 2
      | .offset v => frontWidth / 2 + v
    match ty with
    | .single => [Feature.hole diameter 0 (centerX, holeY) .drawer_pull]
    | _ =>
      let spacing := pullConfig.holeSpacing.getD DRAWER_PULL_DEFAULTS.SPACING_96MM
      let halfSpacing := spacing / 2
      [Feature.hole diameter 0 (centerX - halfSpacing, holeY) .drawer_pull,
       Feature.hole diameter 0 (centerX + halfSpacing, holeY) .drawer_pull]

/-- `generateDrawerFront`.  (`pullHoles` is a required object in the
configuration, so the source's truthiness test on it is always true.) -/
def generateDrawerFront (config : AssemblyConfig) (drawerIndex totalDrawers : ℕ) :
    Component :=
  let dims := calculateDrawerDimensions config drawerIndex totalDrawers
  let toeKickHeight := toeKickHeightOf config
  let drawerGap : ℚ := 3
  let overlayAmount := config.features.drawers.overlayAmount
  let posY := toeKickHeight + config.material.thickness +
    (drawerIndex : ℚ) * (dims.frontHeight + drawerGap) - overlayAmount
  let posX := config.material.thickness - overlayAmount
  { id := "drawer_front_" ++ toString (drawerIndex + 1)
    label := "Drawer Front " ++ toString (drawerIndex + 1)
    role := .drawer_front
    dimensions := ⟨dims.frontWidth, dims.frontHeight, config.material.thickness⟩
    position := ⟨posX, posY, 0⟩
    rotation := ⟨0, 0, 0⟩
    features := generateDrawerPullHoles dims.frontWidth dims.frontHeight
      config.features.drawers.pullHoles
    layer := .OUTSIDE_CUT
    materialThickness := config.material.thickness }

/-- The vertical position of a drawer box shared by
`generateDrawerSides` / `generateDrawerBack` / `generateDrawerBottom`. -/
def drawerBoxPosY (config : AssemblyConfig) (drawerIndex totalDrawers : ℕ) : ℚ :=
  let dims := calculateDrawerDimensions config drawerIndex totalDrawers
  toeKickHeightOf config + config.material.thickness +
    (drawerIndex : ℚ) * (dims.frontHeight + 3) +
    (dims.frontHeight - dims.boxHeight) / 2

/-- The drawer-bottom dado slot cut into each drawer side; `width` is the
drawer-bottom material thickness. -/
def drawerBottomDado (config : AssemblyConfig) (drawerIndex totalDrawers : ℕ) : Feature :=
  let dims := calculateDrawerDimensions config drawerIndex totalDrawers
  Feature.slot (getDrawerBottomThickness config) DRAWER_BOTTOM_DADO_DEPTH
    [(DRAWER_BOX_THICKNESS, DRAWER_BOTTOM_DADO_OFFSET),
     (dims.boxDepth - DRAWER_BOX_THICKNESS, DRAWER_BOTTOM_DADO_OFFSET)] .drawer_bottom

/-- `generateDrawerSides`: the two drawer box sides, each carrying the
drawer-bottom dado. -/
def generateDrawerSides (config : AssemblyConfig) (drawerIndex totalDrawers : ℕ) :
    List Component :=
  let dims := calculateDrawerDimensions config drawerIndex totalDrawers
  let slideWidth := config.features.drawers.slideWidth
  let boxPosY := drawerBoxPosY config drawerIndex totalDrawers
  let bottomDado := drawerBottomDado config drawerIndex totalDrawers
  [{ id := "drawer_side_left_" ++ toString (drawerIndex + 1)
     label := "Drawer " ++ toString (drawerIndex + 1) ++ " Left Side"
     role := .drawer_side
     dimensions := ⟨DRAWER_BOX_THICKNESS, dims.boxHeight, dims.boxDepth⟩
     position := ⟨config.material.thickness + slideWidth, boxPosY, 0⟩
     rotation := ⟨0, 0, 0⟩
     features := [bottomDado]
     layer := .OUTSIDE_CUT
     materialThickness := DRAWER_BOX_THICKNESS },
   { id := "drawer_side_right_" ++ toString (drawerIndex + 1)
     label := "Drawer " ++ toString (drawerIndex + 1) ++ " Right Side"
     role := .drawer_side
     dimensions := ⟨DRAWER_BOX_THICKNESS, dims.boxHeight, dims.boxDepth⟩
     position := ⟨config.material.thickness + slideWidth + dims.boxExteriorWidth -
       DRAWER_BOX_THICKNESS, boxPosY, 0⟩
     rotation := ⟨0, 0, 0⟩
     features := [bottomDado]
     layer := .OUTSIDE_CUT
     materialThickness := DRAWER_BOX_THICKNESS }]

/-- `generateDrawerBack`. -/
def generateDrawerBack (config : AssemblyConfig) (drawerIndex totalDrawers : ℕ) :
    Component :=
  let dims := calculateDrawerDimensions config drawerIndex totalDrawers
  let slideWidth := config.features.drawers.slideWidth
  let boxPosY := drawerBoxPosY config drawerIndex totalDrawers
  let backHeight := dims.boxHeight - DRAWER_BOTTOM_DADO_OFFSET - DRAWER_BOTTOM_DADO_DEPTH
  { id := "drawer_back_" ++ toString (drawerIndex + 1)
    label := "Drawer " ++ toString (drawerIndex + 1) ++ " Back"
    role := .drawer_back
    dimensions := ⟨dims.boxInteriorWidth, backHeight, DRAWER_BOX_THICKNESS⟩
    position := ⟨config.material.thickness + slideWidth + DRAWER_BOX_THICKNESS,
      boxPosY + DRAWER_BOTTOM_DADO_OFFSET + DRAWER_BOTTOM_DADO_DEPTH,
      dims.boxDepth - DRAWER_BOX_THICKNESS⟩
    rotation := ⟨0, 0, 0⟩
    features := []
    layer := .OUTSIDE_CUT
    materialThickness := DRAWER_BOX_THICKNESS }

/-- `generateDrawerBottom`: seats in both side dados. -/
def generateDrawerBottom (config : AssemblyConfig) (drawerIndex totalDrawers : ℕ) :
    Component :=
  let dims := calculateDrawerDimensions config drawerIndex totalDrawers
  let slideWidth := config.features.drawers.slideWidth
  let boxPosY := drawerBoxPosY config drawerIndex totalDrawers
  let drawerBottomThickness := getDrawerBottomThickness config
  { id := "drawer_bottom_" ++ toString (drawerIndex + 1)
    label := "Drawer " ++ toString (drawerIndex + 1) ++ " Bottom"
    role := .drawer_bottom
    dimensions := ⟨dims.boxInteriorWidth + 2 * DRAWER_BOTTOM_DADO_DEPTH,
      drawerBottomThickness,
      dims.boxDepth - 2 * DRAWER_BOX_THICKNESS + 2 * DRAWER_BOTTOM_DADO_DEPTH⟩
    position := ⟨config.material.thickness + slideWidth + DRAWER_BOX_THICKNESS -
      DRAWER_BOTTOM_DADO_DEPTH,
      boxPosY + DRAWER_BOTTOM_DADO_OFFSET,
      DRAWER_BOX_THICKNESS - DRAWER_BOTTOM_DADO_DEPTH⟩
    rotation := ⟨0, 0, 0⟩
    features := []
    layer := .OUTSIDE_CUT
    materialThickness := drawerBottomThickness }

/-- `generateDrawer`: all components for one drawer. -/
def generateDrawer (config : AssemblyConfig) (drawerIndex totalDrawers : ℕ) :
    List Component :=
  generateDrawerFront config drawerIndex totalDrawers ::
    generateDrawerSides config drawerIndex totalDrawers ++
    [generateDrawerBack config drawerIndex totalDrawers,
     generateDrawerBottom config drawerIndex totalDrawers]

/-- `generateDrawers`. -/
def generateDrawers (config : AssemblyConfig) : List Component :=
  if !config.features.drawers.enabled || decide (config.features.drawers.count = 0) then []
  else
    (List.range config.features.drawers.count).flatMap fun i =>
      generateDrawer config i config.features.drawers.count

/-- `validateDrawerConfig`.  (The source's `count < 0` guard cannot fire on
the `ℕ`-valued count of the embedding and is omitted.) -/
def validateDrawerConfig (config : AssemblyConfig) : List String :=
  let drawers := config.features.drawers
  if !drawers.enabled then []
  else
    let interior := calculateInteriorBounds config
    (if drawers.slideWidth < 0 then
      ["Slide width must be non-negative, got " ++ toString drawers.slideWidth ++ "mm."]
    else []) ++
    (let boxWidth := interior.w - 2 * drawers.slideWidth
     if boxWidth < 100 then
      ["Drawer box width (" ++ toString boxWidth ++
       "mm) is too small after slide clearance. Need at least 100mm."]
    else []) ++
    (if 0 < drawers.count then
      let dims := calculateDrawerDimensions config 0 drawers.count
      if dims.boxHeight < DRAWER_DEFAULTS.MIN_HEIGHT then
        ["Drawer height (" ++ toString dims.boxHeight ++ "mm) is below minimum of " ++
         toString DRAWER_DEFAULTS.MIN_HEIGHT ++ "mm. " ++
         "Reduce drawer count or increase cabinet height."]
      else []
    else [])

/-! ## Toe kick panel

Modelled from the spec: the source of `generateToeKickPanel` (imported by the
orchestrator from the carcass module) is not present under `src/`; only its
caller is.  Spec §3 lists the `toe_kick_panel` role and fixes `rotation` as
"currently always identity — reserved"; §4.7 places the optional toe-kick
panel in the build sequence; §6 has the nesting layer consume panel components
from the `OUTSIDE_CUT` layer.  The panel is modelled as a featureless
`OUTSIDE_CUT` recessed front strip produced only when the toe kick is
enabled. -/
def generateToeKickPanel (config : AssemblyConfig) : Option Component :=
  if config.features.toeKick.enabled then
    some
      { id := "toe_kick_panel"
        label := "Toe Kick Panel"
        role := .toe_kick_panel
        dimensions := ⟨config.globalBounds.w - 2 * config.material.thickness,
          config.features.toeKick.height, config.material.thickness⟩
        position := ⟨config.material.thickness, 0, config.features.toeKick.depth⟩
        rotation := ⟨0, 0, 0⟩
        features := []
        layer := .OUTSIDE_CUT
        materialThickness := config.material.thickness }
  else Option.none

/-! ## Assembly orchestrator (`src/lib/geometry/assembly.ts`) -/

/-- `ValidationResult`. -/
structure ValidationResult where
  valid : Bool
  errors : List String
  warnings : List String
deriving DecidableEq

/-- `validateConfig`: concatenates the per-domain error lists; total, never
throws.  `valid` is `errors.length === 0`. -/
def validateConfig (config : AssemblyConfig) : ValidationResult :=
  let errors :=
    validateCarcassConfig config ++ validateBackPanelConfig config ++
    validateShelfConfig config ++ validateDrawerConfig config
  let warnings :=
    if config.features.shelves.adjustable.enabled && config.features.drawers.enabled then
      ["Both shelves and drawers are enabled. " ++
       "Shelf pin holes will be generated but may interfere with drawer slides."]
    else []
  { valid := errors.length == 0
    errors := errors
    warnings := warnings }

/-- `{...panel, features: [...panel.features, ...fs]}` — feature lists are
additive, never overwritten. -/
def addFeatures (c : Component) (fs : List Feature) : Component :=
  { c with features := c.features ++ fs }

/-- One side panel with all injected features, in the source's order:
base features, then shelf-pin holes, runner holes, fixed-shelf dados, and the
back-panel dado, each guarded by its enablement condition. -/
def sidePanelWithFeatures (config : AssemblyConfig) (side : Side) : Component :=
  let base :=
    match side with
    | .left => generateLeftSidePanel config
    | .right => generateRightSidePanel config
  let runnerConfig := config.features.shelves.runners
  let fixedConfig := config.features.shelves.fixed
  addFeatures base
    ((if config.features.shelves.adjustable.enabled then
        generateSidePanelShelfHoles config side
      else []) ++
     (if runnerConfig.enabled && !runnerConfig.positions.isEmpty then
        generateSidePanelRunnerHoles config side
      else []) ++
     (if fixedConfig.enabled && !fixedConfig.positions.isEmpty then
        generateSidePanelFixedShelfDados config side
      else []) ++
     (if requiresDados config then [generateBackPanelDado config side] else []))

/-- `generateCarcassWithFeatures`: the four carcass panels with injected
features (back dados on the top/bottom panels when the back is inset). -/
def generateCarcassWithFeatures (config : AssemblyConfig) : List Component :=
  [sidePanelWithFeatures config .left, sidePanelWithFeatures config .right] ++
    (if requiresDados config then
      [addFeatures (generateTopPanel config) [generateHorizontalBackPanelDado config .top],
       addFeatures (generateBottomPanel config) [generateHorizontalBackPanelDado config .bottom]]
    else [generateTopPanel config, generateBottomPanel config])

/-- The component list of `buildAssembly`, in the source's push order:
carcass, back panel, toe-kick panel, shelves, drawers. -/
def assemblyComponents (config : AssemblyConfig) : List Component :=
  generateCarcassWithFeatures config ++
    (generateBackPanel config).toList ++
    (generateToeKickPanel config).toList ++
    generateShelves config ++
    generateDrawers config

/-- `.join('\n')` on a list of strings. -/
def joinNewline : List String → String
  | [] => ""
  | [s] => s
  | s :: rest => s ++ "\n" ++ joinNewline rest

/-- `buildAssembly`: validates, then either throws (modelled as
`Except.error` carrying the thrown message) or assembles the components. -/
def buildAssembly (config : AssemblyConfig) : Except String Assembly :=
  let validation := validateConfig config
  if !validation.valid then
    Except.error ("Invalid assembly configuration:\n" ++ joinNewline validation.errors)
  else
    Except.ok
      { config := config
        components := assemblyComponents config
        interiorBounds := calculateInteriorBounds config
        metadata := { version := BUILDER_VERSION } }

/-! ## Dogbone fillet processor (`src/lib/geometry/dogbone.ts`)

This module calls `Math.sqrt`, so it is modelled over `ℝ` with `Real.sqrt`
(the only part of the embedding that is not executable; concrete evaluations
are carried out by `simp`/`norm_num` instead of `decide`). -/

open scoped Classical in
/-- `Math.sign`. -/
noncomputable def rsign (x : ℝ) : ℝ :=
  if 0 < x then 1 else if x < 0 then -1 else 0

/-- Dogbone placement strategy. -/
inductive DogboneDirection where
  | diagonal
  | horizontal
  | vertical
deriving DecidableEq

/-- `DogboneFillet`. -/
structure DogboneFillet where
  center : ℝ × ℝ
  radius : ℝ
  cornerIndex : ℕ

open scoped Classical in
/-- `calculateDogboneCenter`: the relief-circle center for a corner.  In the
`diagonal` strategy the two corner-to-neighbor vectors are normalized, summed
and re-normalized into the inward bisector, and the center is offset from the
corner by `bitRadius * sqrt 2` along it; degenerate corners (a neighbor
coincides with the corner, or the unit vectors cancel) return the corner
unchanged. -/
noncomputable def calculateDogboneCenter (corner : ℝ × ℝ) (bitRadius : ℝ)
    (prevPoint nextPoint : ℝ × ℝ) (direction : DogboneDirection) : ℝ × ℝ :=
  let cx := corner.1
  let cy := corner.2
  let v1x := prevPoint.1 - cx
  let v1y := prevPoint.2 - cy
  let v2x := nextPoint.1 - cx
  let v2y := nextPoint.2 - cy
  match direction with
  | .diagonal =>
    let len1 := Real.sqrt (v1x * v1x + v1y * v1y)
    let len2 := Real.sqrt (v2x * v2x + v2y * v2y)
    if len1 = 0 ∨ len2 = 0 then corner
    else
      let n1x := v1x / len1
      let n1y := v1y / len1
      let n2x := v2x / len2
      let n2y := v2y / len2
      let bisectorX := n1x + n2x
      let bisectorY := n1y + n2y
      let bisectorLen := Real.sqrt (bisectorX * bisectorX + bisectorY * bisectorY)
      if bisectorLen = 0 then corner
      else
        let bx := bisectorX / bisectorLen
        let bv := bisectorY / bisectorLen
        let offset := bitRadius * Real.sqrt 2
        (cx + bx * offset, cy + bv * offset)
  | .horizontal =>
    let dirX := if v1x ≠ 0 then rsign v1x else rsign v2x
    (cx + dirX * bitRadius, cy)
  | .vertical =>
    let dirY := if v1y ≠ 0 then rsign v1y else rsign v2y
    (cx, cy + dirY * bitRadius)

/-- `generateRectangleDogbones`: one diagonal dogbone per corner of a
rectangular pocket, corners counter-clockwise from bottom-left, each corner's
neighbors being the adjacent rectangle corners. -/
noncomputable def generateRectangleDogbones (x y width height bitDiameter : ℝ) :
    List DogboneFillet :=
  let bitRadius := bitDiameter / 2
  let c0 : ℝ × ℝ := (x, y)
  let c1 : ℝ × ℝ := (x + width, y)
  let c2 : ℝ × ℝ := (x + width, y + height)
  let c3 : ℝ × ℝ := (x, y + height)
  [{ center := calculateDogboneCenter c0 bitRadius c3 c1 .diagonal
     radius := bitRadius, cornerIndex := 0 },
   { center := calculateDogboneCenter c1 bitRadius c0 c2 .diagonal
     radius := bitRadius, cornerIndex := 1 },
   { center := calculateDogboneCenter c2 bitRadius c1 c3 .diagonal
     radius := bitRadius, cornerIndex := 2 },
   { center := calculateDogboneCenter c3 bitRadius c2 c0 .diagonal
     radius := bitRadius, cornerIndex := 3 }]

/-! Spec-side vocabulary for the dogbone claims: Euclidean norm, unit vectors,
the inward bisector described by the spec, the rectangle corners and their
adjacent edges. -/

/-- Euclidean length of a 2D vector. -/
noncomputable def norm2 (v : ℝ × ℝ) : ℝ :=
  Real.sqrt (v.1 * v.1 + v.2 * v.2)

/-- The unit vector of `v` (the zero vector maps to zero). -/
noncomputable def unitVec (v : ℝ × ℝ) : ℝ × ℝ :=
  (v.1 / norm2 v, v.2 / norm2 v)

/-- The sum of the unit vectors from the corner toward its two adjacent
boundary points. -/
noncomputable def specBisectorSum (corner prevPoint nextPoint : ℝ × ℝ) : ℝ × ℝ :=
  unitVec (prevPoint.1 - corner.1, prevPoint.2 - corner.2) +
    unitVec (nextPoint.1 - corner.1, nextPoint.2 - corner.2)

/-- The inward bisector of the spec: the normalized sum of the two unit
vectors. -/
noncomputable def specInwardBisector (corner prevPoint nextPoint : ℝ × ℝ) : ℝ × ℝ :=
  unitVec (specBisectorSum corner prevPoint nextPoint)

/-- Euclidean distance between two points. -/
noncomputable def dist2 (a b : ℝ × ℝ) : ℝ :=
  Real.sqrt ((a.1 - b.1) * (a.1 - b.1) + (a.2 - b.2) * (a.2 - b.2))

/-- The rectangle corner with a given index (counter-clockwise from
bottom-left, as enumerated by `generateRectangleDogbones`). -/
def rectCornerPoint (x y width height : ℝ) : ℕ → ℝ × ℝ
  | 0 => (x, y)
  | 1 => (x + width, y)
  | 2 => (x + width, y + height)
  | _ => (x, y + height)

/-- The x-coordinate of the vertical rectangle edge adjacent to corner `i`. -/
def rectCornerEdgeX (x width : ℝ) : ℕ → ℝ
  | 0 => x
  | 3 => x
  | _ => x + width

/-- The y-coordinate of the horizontal rectangle edge adjacent to corner `i`. -/
def rectCornerEdgeY (y height : ℝ) : ℕ → ℝ
  | 0 => y
  | 1 => y
  | _ => y + height

/-! ## Concrete configurations used by witnesses and counterexamples -/

/-- The default configuration of `constants.ts` (600 x 720 x 560, 18 mm
material, applied 6 mm back, toe kick 100/75, two adjustable shelves, no
drawers, no pre-drills). -/
def cfgDefault : AssemblyConfig :=
  { globalBounds := ⟨600, 720, 560⟩
    material := ⟨18, 3.2⟩
    secondaryMaterial := ⟨some 6, some 6, Option.none⟩
    machining := ⟨6.35, .outside⟩
    backPanel := ⟨.applied, 6, some 6, some 10⟩
    features :=
      { shelves :=
          { adjustable := ⟨true, 2, some 37, some 37⟩
            fixed := ⟨false, [], some 6, false⟩
            runners := ⟨false, [], some 50, some 50, some 4, some 2⟩ }
        drawers := ⟨false, 0, 12.7, 19, ⟨.none, some 5, some 96, some 32, .center⟩⟩
        toeKick := ⟨true, 100, 75⟩ }
    predrills :=
      { assembly := ⟨false, true, some 3, some 8, some 25, some 200⟩
        slides := ⟨false, some 4, some 37, some 37, some 32, some 3⟩ } }

/-- The default configuration with an inset back panel. -/
def cfgInset : AssemblyConfig :=
  { cfgDefault with backPanel := ⟨.inset, 6, some 6, some 10⟩ }

/-- The default configuration with two drawers, slide pre-drills enabled and
adjustable shelves disabled. -/
def cfgDrawers : AssemblyConfig :=
  { cfgDefault with
    features :=
      { shelves :=
          { adjustable := ⟨false, 0, some 37, some 37⟩
            fixed := ⟨false, [], some 6, false⟩
            runners := ⟨false, [], some 50, some 50, some 4, some 2⟩ }
        drawers := ⟨true, 2, 12.7, 19, ⟨.none, some 5, some 96, some 32, .center⟩⟩
        toeKick := ⟨true, 100, 75⟩ }
    predrills :=
      { assembly := ⟨false, true, some 3, some 8, some 25, some 200⟩
        slides := ⟨true, some 4, some 37, some 37, some 32, some 3⟩ } }

/-- An invalid configuration: cabinet width 50 mm, below the 100 mm minimum
(its validation produces exactly one error). -/
def cfgBad : AssemblyConfig :=
  { cfgDefault with globalBounds := ⟨50, 720, 560⟩ }

/-! ## Accessors and predicates used by the theorem statements -/

/-- The `width` field of a slot feature (0 for non-slots). -/
def slotWidthOf : Feature → ℚ
  | .slot w _ _ _ => w
  | _ => 0

/-- The `depth` field of a slot feature (0 for non-slots). -/
def slotDepthOf : Feature → ℚ
  | .slot _ dp _ _ => dp
  | _ => 0

/-- The y-coordinate (`pos[1]`) of a hole feature (0 for non-holes). -/
def holePosY : Feature → ℚ
  | .hole _ _ p _ => p.2
  | _ => 0

/-- Is the feature a `Slot`? -/
def isSlotFeature : Feature → Bool
  | .slot _ _ _ _ => true
  | _ => false

/-- Is the feature a `Slot` with purpose `dado`? -/
def isDadoSlot : Feature → Bool
  | .slot _ _ _ .dado => true
  | _ => false

/-- Is the feature a vertical dado: a purpose-`dado` slot whose two path
points share their x-coordinate? -/
def isVerticalDadoSlot : Feature → Bool
  | .slot _ _ [(x1, _), (x2, _)] .dado => decide (x1 = x2)
  | _ => false

/-- Is the feature a horizontal dado: a purpose-`dado` slot whose two path
points share their y-coordinate? -/
def isHorizontalDadoSlot : Feature → Bool
  | .slot _ _ [(_, y1), (_, y2)] .dado => decide (y1 = y2)
  | _ => false

/-- The dado-width discipline of claim C1, per feature: a purpose-`dado` slot
is either a back-panel dado (width = back-panel material thickness) or a
fixed-shelf dado (width = fixed-shelf material thickness), and a
drawer-bottom slot has the drawer-bottom material thickness. -/
def DadoWidthOk (config : AssemblyConfig) (f : Feature) : Prop :=
  ∀ w dp path pu, f = Feature.slot w dp path pu →
    (pu = .dado →
      w = getBackPanelThickness config ∨ w = fixedShelfThicknessOf config) ∧
    (pu = .drawer_bottom → w = getDrawerBottomThickness config)

/-! ## Validity of the concrete configurations (shared helper lemmas) -/

/-- The default configuration passes validation. -/
theorem cfgDefault_valid : (validateConfig cfgDefault).valid = true := by
  norm_num [validateConfig, validateCarcassConfig, validateBackPanelConfig,
    validateShelfConfig, validateDrawerConfig, toeKickHeightOf, fixedDadoDepthOf,
    backDadoDepthOf, backInsetDistanceOf, SYSTEM_32.FRONT_SETBACK,
    SYSTEM_32.REAR_SETBACK, SYSTEM_32.VERTICAL_MARGIN, SYSTEM_32.HOLE_SPACING,
    cfgDefault]

/-- The inset-back configuration passes validation. -/
theorem cfgInset_valid : (validateConfig cfgInset).valid = true := by
  norm_num [validateConfig, validateCarcassConfig, validateBackPanelConfig,
    validateShelfConfig, validateDrawerConfig, toeKickHeightOf, fixedDadoDepthOf,
    backDadoDepthOf, backInsetDistanceOf, SYSTEM_32.FRONT_SETBACK,
    SYSTEM_32.REAR_SETBACK, SYSTEM_32.VERTICAL_MARGIN, SYSTEM_32.HOLE_SPACING,
    cfgInset, cfgDefault]

/-- The drawer configuration passes validation. -/
theorem cfgDrawers_valid : (validateConfig cfgDrawers).valid = true := by
  norm_num [validateConfig, validateCarcassConfig, validateBackPanelConfig,
    validateShelfConfig, validateDrawerConfig, toeKickHeightOf, fixedDadoDepthOf,
    backDadoDepthOf, backInsetDistanceOf, calculateDrawerDimensions,
    calculateInteriorBounds, DRAWER_BOX_THICKNESS, MATERIAL_THICKNESSES.HALF_INCH,
    DRAWER_DEFAULTS.MIN_HEIGHT, SYSTEM_32.FRONT_SETBACK,
    SYSTEM_32.REAR_SETBACK, SYSTEM_32.VERTICAL_MARGIN, SYSTEM_32.HOLE_SPACING,
    cfgDrawers, cfgDefault]

/-- The undersized configuration fails validation. -/
theorem cfgBad_invalid : (validateConfig cfgBad).valid = false := by
  norm_num [validateConfig, validateCarcassConfig, validateBackPanelConfig,
    validateShelfConfig, validateDrawerConfig, toeKickHeightOf, fixedDadoDepthOf,
    backDadoDepthOf, backInsetDistanceOf, SYSTEM_32.FRONT_SETBACK,
    SYSTEM_32.REAR_SETBACK, SYSTEM_32.VERTICAL_MARGIN, SYSTEM_32.HOLE_SPACING,
    cfgBad, cfgDefault]

/-! ## C3 — top/bottom panel width formula -/

/-- C3: for every configuration the top panel's width (`dimensions[0]`) and
the bottom panel's width both equal `globalBounds.w - 2 * material.thickness`;
in particular, for any `w`, `t` the generated width is `w - 2t` (e.g. 1000 and
18 give 964, as the unconditional formula instantiates). -/
theorem topBottomPanelWidth_c3 (config : AssemblyConfig) :
    (generateTopPanel config).dimensions.x
        = config.globalBounds.w - 2 * config.material.thickness
    ∧ (generateBottomPanel config).dimensions.x
        = config.globalBounds.w - 2 * config.material.thickness :=
  ⟨rfl, rfl⟩

/-! ## C4 — interior bounds formula -/

/-- C4: for every configuration,
`interiorBounds.w = w - 2 * thickness`,
`interiorBounds.h = h - 2 * thickness - toeKickHeight` (toe-kick height 0 when
disabled), `interiorBounds.d = d`; and the concrete example
600 x 720 x 560 mm, 18 mm material, 100 mm toe kick yields `{564, 584, 560}`. -/
theorem interiorBounds_c4 (config : AssemblyConfig) :
    (calculateInteriorBounds config).w
        = config.globalBounds.w - 2 * config.material.thickness
    ∧ (calculateInteriorBounds config).h
        = config.globalBounds.h - 2 * config.material.thickness - toeKickHeightOf config
    ∧ (calculateInteriorBounds config).d = config.globalBounds.d
    ∧ calculateInteriorBounds cfgDefault = ⟨564, 584, 560⟩ :=
  ⟨rfl, rfl, rfl, by norm_num [calculateInteriorBounds, toeKickHeightOf, cfgDefault]⟩

/-! ## C2 — shelf-pin symmetry -/

/-- C2: for every valid configuration with adjustable shelves enabled, the
left and right side panels receive the same number of shelf-pin holes, and
the i-th holes' y-coordinates differ by at most 0.01 mm (the generator
computes identical columns for both sides). -/
theorem shelfPinSymmetry_c2 (config : AssemblyConfig)
    (hv : (validateConfig config).valid = true)
    (ha : config.features.shelves.adjustable.enabled = true) :
    (generateSidePanelShelfHoles config .left).length
        = (generateSidePanelShelfHoles config .right).length
    ∧ ∀ i : ℕ, ∀ hl : i < (generateSidePanelShelfHoles config .left).length,
        ∀ hr : i < (generateSidePanelShelfHoles config .right).length,
        |holePosY ((generateSidePanelShelfHoles config .left).get ⟨i, hl⟩) -
          holePosY ((generateSidePanelShelfHoles config .right).get ⟨i, hr⟩)| ≤ 1 / 100 := by
  have e : generateSidePanelShelfHoles config .right
      = generateSidePanelShelfHoles config .left := rfl
  constructor
  · rw [e]
  · intro i hl hr
    have : ((generateSidePanelShelfHoles config .right).get ⟨i, hr⟩)
        = ((generateSidePanelShelfHoles config .left).get ⟨i, hl⟩) := by
      congr 1
    rw [this, sub_self, abs_zero]
    norm_num

/-- Witness for C2 at the default configuration. -/
theorem shelfPinSymmetry_c2_witness :
    (validateConfig cfgDefault).valid = true
    ∧ cfgDefault.features.shelves.adjustable.enabled = true
    ∧ ((generateSidePanelShelfHoles cfgDefault .left).length
          = (generateSidePanelShelfHoles cfgDefault .right).length
      ∧ ∀ i : ℕ, ∀ hl : i < (generateSidePanelShelfHoles cfgDefault .left).length,
          ∀ hr : i < (generateSidePanelShelfHoles cfgDefault .right).length,
          |holePosY ((generateSidePanelShelfHoles cfgDefault .left).get ⟨i, hl⟩) -
            holePosY ((generateSidePanelShelfHoles cfgDefault .right).get ⟨i, hr⟩)| ≤ 1 / 100) :=
  ⟨cfgDefault_valid, rfl, shelfPinSymmetry_c2 cfgDefault cfgDefault_valid rfl⟩

/-! ## C7 — carcass slide pre-drills and drawer generator agree -/

/-- C7: for every valid configuration with drawers (count ≥ 1) and slide
pre-drills enabled, and every drawer index, the drawer-opening bottom Y
recomputed inline by the carcass slide pre-drill generator equals the drawer
generator's stacking base (`generateDrawerFront`'s `position[1]` plus the
overlay amount), and the two generators derive the same drawer front
height. -/
theorem drawerStackConsistency_c7 (config : AssemblyConfig)
    (hv : (validateConfig config).valid = true)
    (hd : config.features.drawers.enabled = true)
    (hc : 1 ≤ config.features.drawers.count)
    (hs : config.predrills.slides.enabled = true) :
    ∀ i : ℕ, i < config.features.drawers.count →
      slidePredrillDrawerBottomY config config.globalBounds.h i
          = (generateDrawerFront config i config.features.drawers.count).position.y
            + config.features.drawers.overlayAmount
      ∧ slidePredrillDrawerFrontHeight config config.globalBounds.h
          = (calculateDrawerDimensions config i config.features.drawers.count).frontHeight := by
  intro i hi
  constructor
  · simp only [slidePredrillDrawerBottomY, slidePredrillDrawerFrontHeight,
      generateDrawerFront, calculateDrawerDimensions, calculateInteriorBounds]
    ring
  · rfl

/-- Witness for C7 at the drawer configuration. -/
theorem drawerStackConsistency_c7_witness :
    (validateConfig cfgDrawers).valid = true
    ∧ cfgDrawers.features.drawers.enabled = true
    ∧ 1 ≤ cfgDrawers.features.drawers.count
    ∧ cfgDrawers.predrills.slides.enabled = true
    ∧ (∀ i : ℕ, i < cfgDrawers.features.drawers.count →
        slidePredrillDrawerBottomY cfgDrawers cfgDrawers.globalBounds.h i
            = (generateDrawerFront cfgDrawers i cfgDrawers.features.drawers.count).position.y
              + cfgDrawers.features.drawers.overlayAmount
        ∧ slidePredrillDrawerFrontHeight cfgDrawers cfgDrawers.globalBounds.h
            = (calculateDrawerDimensions cfgDrawers i
                cfgDrawers.features.drawers.count).frontHeight) :=
  ⟨cfgDrawers_valid, rfl, by norm_num [cfgDrawers], rfl,
    drawerStackConsistency_c7 cfgDrawers cfgDrawers_valid rfl (by norm_num [cfgDrawers]) rfl⟩

/-! ## Dogbone geometry lemmas (shared helpers) -/

/-- The Euclidean length `sqrt (a*a + b*b)` vanishes only on the zero
vector. -/
theorem sqrt_sum_mulself_eq_zero_iff (a b : ℝ) :
    Real.sqrt (a * a + b * b) = 0 ↔ a = 0 ∧ b = 0 := by
  rw [show a * a + b * b = a ^ 2 + b ^ 2 by ring, Real.sqrt_eq_zero (by positivity)]
  constructor
  · intro hz
    constructor
    · nlinarith [sq_nonneg a, sq_nonneg b]
    · nlinarith [sq_nonneg a, sq_nonneg b]
  · rintro ⟨rfl, rfl⟩; ring

/-- Dogbone center at a right-angle corner whose previous neighbor is
vertical (offset `a`) and next neighbor horizontal (offset `b`). -/
theorem dogboneCenter_axisVH (cx cy a b r : ℝ) (ha : a ≠ 0) (hb : b ≠ 0) :
    calculateDogboneCenter (cx, cy) r (cx, cy + a) (cx + b, cy) .diagonal
      = (cx + b / |b| * r, cy + a / |a| * r) := by
  have hs2 : Real.sqrt 2 ≠ 0 := by positivity
  have h1 : Real.sqrt ((cx - cx) * (cx - cx) + (cy + a - cy) * (cy + a - cy)) = |a| := by
    rw [show (cx - cx) * (cx - cx) + (cy + a - cy) * (cy + a - cy) = a ^ 2 by ring,
      Real.sqrt_sq_eq_abs]
  have h2 : Real.sqrt ((cx + b - cx) * (cx + b - cx) + (cy - cy) * (cy - cy)) = |b| := by
    rw [show (cx + b - cx) * (cx + b - cx) + (cy - cy) * (cy - cy) = b ^ 2 by ring,
      Real.sqrt_sq_eq_abs]
  have hb1 : b / |b| * (b / |b|) = 1 := by
    rw [div_mul_div_comm, abs_mul_abs_self, div_self (mul_ne_zero hb hb)]
  have ha1 : a / |a| * (a / |a|) = 1 := by
    rw [div_mul_div_comm, abs_mul_abs_self, div_self (mul_ne_zero ha ha)]
  simp only [calculateDogboneCenter, h1, h2]
  rw [if_neg (by push_neg; exact ⟨abs_ne_zero.mpr ha, abs_ne_zero.mpr hb⟩)]
  simp only [sub_self, zero_div, add_sub_cancel_left, zero_add, add_zero]
  rw [show b / |b| * (b / |b|) + a / |a| * (a / |a|) = 2 by rw [hb1, ha1]; norm_num]
  rw [if_neg hs2]
  have key : ∀ q : ℝ, q / Real.sqrt 2 * (r * Real.sqrt 2) = q * r := by
    intro q; field_simp; ring
  rw [key, key]

/-- Dogbone center at a right-angle corner whose previous neighbor is
horizontal (offset `a`) and next neighbor vertical (offset `b`). -/
theorem dogboneCenter_axisHV (cx cy a b r : ℝ) (ha : a ≠ 0) (hb : b ≠ 0) :
    calculateDogboneCenter (cx, cy) r (cx + a, cy) (cx, cy + b) .diagonal
      = (cx + a / |a| * r, cy + b / |b| * r) := by
  have hs2 : Real.sqrt 2 ≠ 0 := by positivity
  have h1 : Real.sqrt ((cx + a - cx) * (cx + a - cx) + (cy - cy) * (cy - cy)) = |a| := by
    rw [show (cx + a - cx) * (cx + a - cx) + (cy - cy) * (cy - cy) = a ^ 2 by ring,
      Real.sqrt_sq_eq_abs]
  have h2 : Real.sqrt ((cx - cx) * (cx - cx) + (cy + b - cy) * (cy + b - cy)) = |b| := by
    rw [show (cx - cx) * (cx - cx) + (cy + b - cy) * (cy + b - cy) = b ^ 2 by ring,
      Real.sqrt_sq_eq_abs]
  have ha1 : a / |a| * (a / |a|) = 1 := by
    rw [div_mul_div_comm, abs_mul_abs_self, div_self (mul_ne_zero ha ha)]
  have hb1 : b / |b| * (b / |b|) = 1 := by
    rw [div_mul_div_comm, abs_mul_abs_self, div_self (mul_ne_zero hb hb)]
  simp only [calculateDogboneCenter, h1, h2]
  rw [if_neg (by push_neg; exact ⟨abs_ne_zero.mpr ha, abs_ne_zero.mpr hb⟩)]
  simp only [sub_self, zero_div, add_sub_cancel_left, zero_add, add_zero]
  rw [show a / |a| * (a / |a|) + b / |b| * (b / |b|) = 2 by rw [ha1, hb1]; norm_num]
  rw [if_neg hs2]
  have key : ∀ q : ℝ, q / Real.sqrt 2 * (r * Real.sqrt 2) = q * r := by
    intro q; field_simp; ring
  rw [key, key]

/-- Closed form of `generateRectangleDogbones` for a non-degenerate
rectangle: each fillet center sits `bitRadius` inside both adjacent edges. -/
theorem rectangleDogbones_eq (x y w h d : ℝ) (hw : 0 < w) (hh : 0 < h) :
    generateRectangleDogbones x y w h d =
      [⟨(x + d / 2, y + d / 2), d / 2, 0⟩,
       ⟨(x + w - d / 2, y + d / 2), d / 2, 1⟩,
       ⟨(x + w - d / 2, y + h - d / 2), d / 2, 2⟩,
       ⟨(x + d / 2, y + h - d / 2), d / 2, 3⟩] := by
  have c0 : calculateDogboneCenter (x, y) (d / 2) (x, y + h) (x + w, y) .diagonal
      = (x + d / 2, y + d / 2) := by
    have e := dogboneCenter_axisVH x y h w (d / 2) hh.ne' hw.ne'
    rw [abs_of_pos hw, abs_of_pos hh, div_self hw.ne', div_self hh.ne', one_mul] at e
    exact e
  have c1 : calculateDogboneCenter (x + w, y) (d / 2) (x, y) (x + w, y + h) .diagonal
      = (x + w - d / 2, y + d / 2) := by
    have e := dogboneCenter_axisHV (x + w) y (-w) h (d / 2) (neg_ne_zero.mpr hw.ne') hh.ne'
    rw [show x + w + -w = x by ring] at e
    rw [e, abs_neg, abs_of_pos hw, abs_of_pos hh, div_self hh.ne', neg_div,
      div_self hw.ne', one_mul]
    simp only [Prod.mk.injEq]
    constructor <;> ring
  have c2 : calculateDogboneCenter (x + w, y + h) (d / 2) (x + w, y) (x, y + h) .diagonal
      = (x + w - d / 2, y + h - d / 2) := by
    have e := dogboneCenter_axisVH (x + w) (y + h) (-h) (-w) (d / 2)
      (neg_ne_zero.mpr hh.ne') (neg_ne_zero.mpr hw.ne')
    rw [show y + h + -h = y by ring, show x + w + -w = x by ring] at e
    rw [e, abs_neg, abs_neg, abs_of_pos hw, abs_of_pos hh, neg_div, neg_div,
      div_self hw.ne', div_self hh.ne']
    simp only [Prod.mk.injEq]
    constructor <;> ring
  have c3 : calculateDogboneCenter (x, y + h) (d / 2) (x + w, y + h) (x, y) .diagonal
      = (x + d / 2, y + h - d / 2) := by
    have e := dogboneCenter_axisHV x (y + h) w (-h) (d / 2) hw.ne' (neg_ne_zero.mpr hh.ne')
    rw [show y + h + -h = y by ring] at e
    rw [e, abs_neg, abs_of_pos hw, abs_of_pos hh, neg_div, div_self hw.ne',
      div_self hh.ne', one_mul]
    simp only [Prod.mk.injEq]
    constructor <;> ring
  simp only [generateRectangleDogbones, c0, c1, c2, c3]

/-! ## C5 — dogbone placement formula -/

/-- C5: for every internal corner with non-degenerate, non-collinear adjacent
points and every positive bit diameter, the dogbone center equals
`corner + b * (radius * sqrt 2)` where `b` is the normalized sum of the unit
vectors from the corner toward its two adjacent boundary points (the inward
bisector); and for a rectangular pocket one fillet per corner is produced,
each with radius `bitDiameter / 2` (with the centers in closed form,
instantiating the bisector formula at the four axis-aligned corners). -/
theorem dogboneGeometry_c5 :
    (∀ (corner prevPoint nextPoint : ℝ × ℝ) (bitDiameter : ℝ),
        0 < bitDiameter → prevPoint ≠ corner → nextPoint ≠ corner →
        specBisectorSum corner prevPoint nextPoint ≠ 0 →
        calculateDogboneCenter corner (bitDiameter / 2) prevPoint nextPoint .diagonal
          = corner + (bitDiameter / 2 * Real.sqrt 2) •
              specInwardBisector corner prevPoint nextPoint)
    ∧ (∀ x y w h d : ℝ, 0 < w → 0 < h → 0 < d →
        (generateRectangleDogbones x y w h d).length = 4
        ∧ (∀ f ∈ generateRectangleDogbones x y w h d, f.radius = d / 2)
        ∧ generateRectangleDogbones x y w h d =
            [⟨(x + d / 2, y + d / 2), d / 2, 0⟩,
             ⟨(x + w - d / 2, y + d / 2), d / 2, 1⟩,
             ⟨(x + w - d / 2, y + h - d / 2), d / 2, 2⟩,
             ⟨(x + d / 2, y + h - d / 2), d / 2, 3⟩]) := by
  constructor
  · intro corner prevPoint nextPoint bitDiameter _hd hp hn hb
    have h1 : ¬ Real.sqrt ((prevPoint.1 - corner.1) * (prevPoint.1 - corner.1) +
        (prevPoint.2 - corner.2) * (prevPoint.2 - corner.2)) = 0 := by
      rw [sqrt_sum_mulself_eq_zero_iff]
      rintro ⟨e1, e2⟩
      exact hp (Prod.ext (sub_eq_zero.mp e1) (sub_eq_zero.mp e2))
    have h2 : ¬ Real.sqrt ((nextPoint.1 - corner.1) * (nextPoint.1 - corner.1) +
        (nextPoint.2 - corner.2) * (nextPoint.2 - corner.2)) = 0 := by
      rw [sqrt_sum_mulself_eq_zero_iff]
      rintro ⟨e1, e2⟩
      exact hn (Prod.ext (sub_eq_zero.mp e1) (sub_eq_zero.mp e2))
    have hbl : ¬ Real.sqrt ((specBisectorSum corner prevPoint nextPoint).1 *
        (specBisectorSum corner prevPoint nextPoint).1 +
        (specBisectorSum corner prevPoint nextPoint).2 *
        (specBisectorSum corner prevPoint nextPoint).2) = 0 := by
      rw [sqrt_sum_mulself_eq_zero_iff]
      rintro ⟨e1, e2⟩
      exact hb (Prod.ext e1 e2)
    simp only [calculateDogboneCenter]
    rw [if_neg (by push_neg; exact ⟨h1, h2⟩)]
    rw [if_neg (by
      simpa only [specBisectorSum, unitVec, norm2, Prod.fst_add, Prod.snd_add] using hbl)]
    apply Prod.ext
    · simp only [specInwardBisector, specBisectorSum, unitVec, norm2, Prod.fst_add,
        Prod.snd_add, Prod.smul_fst, smul_eq_mul]
      ring
    · simp only [specInwardBisector, specBisectorSum, unitVec, norm2, Prod.fst_add,
        Prod.snd_add, Prod.smul_snd, smul_eq_mul]
      ring
  · intro x y w h d hw hh _hd
    refine ⟨?_, ?_, rectangleDogbones_eq x y w h d hw hh⟩
    · rw [rectangleDogbones_eq x y w h d hw hh]
      rfl
    · rw [rectangleDogbones_eq x y w h d hw hh]
      intro f hf
      simp only [List.mem_cons, List.not_mem_nil, or_false] at hf
      rcases hf with rfl | rfl | rfl | rfl <;> rfl

/-- Witness for C5: a concrete right-angle corner and the 10 x 10 pocket with
a 2 mm bit. -/
theorem dogboneGeometry_c5_witness :
    ((0:ℝ) < 2
    ∧ (((0:ℝ), (1:ℝ)) : ℝ × ℝ) ≠ ((0:ℝ), (0:ℝ))
    ∧ (((1:ℝ), (0:ℝ)) : ℝ × ℝ) ≠ ((0:ℝ), (0:ℝ))
    ∧ specBisectorSum ((0:ℝ), (0:ℝ)) ((0:ℝ), (1:ℝ)) ((1:ℝ), (0:ℝ)) ≠ 0
    ∧ calculateDogboneCenter ((0:ℝ), (0:ℝ)) (2 / 2) ((0:ℝ), (1:ℝ)) ((1:ℝ), (0:ℝ)) .diagonal
        = ((0:ℝ), (0:ℝ)) + (2 / 2 * Real.sqrt 2) •
            specInwardBisector ((0:ℝ), (0:ℝ)) ((0:ℝ), (1:ℝ)) ((1:ℝ), (0:ℝ)))
    ∧ ((0:ℝ) < 10 ∧ (0:ℝ) < 10 ∧ (0:ℝ) < 2
    ∧ (generateRectangleDogbones 0 0 10 10 2).length = 4
    ∧ (∀ f ∈ generateRectangleDogbones 0 0 10 10 2, f.radius = 2 / 2)) := by
  have hp : (((0:ℝ), (1:ℝ)) : ℝ × ℝ) ≠ ((0:ℝ), (0:ℝ)) := by
    simp [Prod.ext_iff]
  have hn : (((1:ℝ), (0:ℝ)) : ℝ × ℝ) ≠ ((0:ℝ), (0:ℝ)) := by
    simp [Prod.ext_iff]
  have hb : specBisectorSum ((0:ℝ), (0:ℝ)) ((0:ℝ), (1:ℝ)) ((1:ℝ), (0:ℝ)) ≠ 0 := by
    simp [specBisectorSum, unitVec, norm2, Prod.ext_iff]
  have h2 := dogboneGeometry_c5.2 0 0 10 10 2 (by norm_num) (by norm_num) (by norm_num)
  exact ⟨⟨by norm_num, hp, hn, hb,
    dogboneGeometry_c5.1 ((0:ℝ), (0:ℝ)) ((0:ℝ), (1:ℝ)) ((1:ℝ), (0:ℝ)) 2
      (by norm_num) hp hn hb⟩,
    by norm_num, by norm_num, by norm_num, h2.1, h2.2.1⟩

/-! ## C6 — dogbone tangency (corrected)

The claim asserts both that the circle is tangent to the two adjacent edges
and that the corner lies exactly on the circle (distance from center to
corner = radius).  The code places the center `radius * sqrt 2` along the
bisector, which makes the circle tangent to both edges but puts the corner at
distance `radius * sqrt 2 > radius` from the center, so the corner is *not*
on the circle. -/

/-- C6 counterexample: for the 10 x 10 pocket with a 2 mm bit, the first
fillet's center is at distance `sqrt 2` from its corner while its radius is
1 — the corner does not lie on the circle, contradicting the claim as
stated. -/
theorem dogboneTangency_c6_counterexample :
    dist2 ((generateRectangleDogbones 0 0 10 10 2).headD ⟨(0, 0), 0, 0⟩).center (0, 0)
      ≠ ((generateRectangleDogbones 0 0 10 10 2).headD ⟨(0, 0), 0, 0⟩).radius := by
  rw [rectangleDogbones_eq 0 0 10 10 2 (by norm_num) (by norm_num)]
  simp only [List.headD_cons]
  show Real.sqrt _ ≠ _
  rw [show (0 + 2 / 2 - (0:ℝ)) * (0 + 2 / 2 - 0) + (0 + 2 / 2 - 0) * (0 + 2 / 2 - 0)
    = 2 by norm_num]
  intro hcon
  have h2 := Real.sq_sqrt (by norm_num : (0:ℝ) ≤ 2)
  rw [hcon] at h2
  norm_num at h2

/-- C6 (amended): for every rectangle corner processed with a positive bit
diameter `d`, the fillet's radius is `d / 2`, the circle is tangent to both
adjacent edges (the center lies at distance `d / 2` from each adjacent edge
line), and the center lies at Euclidean distance `(d / 2) * sqrt 2` — not
`d / 2` — from the corner point. -/
theorem dogboneTangency_c6_amended (x y w h d : ℝ) (hw : 0 < w) (hh : 0 < h)
    (hd : 0 < d) :
    ∀ f ∈ generateRectangleDogbones x y w h d,
      f.radius = d / 2
      ∧ dist2 f.center (rectCornerPoint x y w h f.cornerIndex) = d / 2 * Real.sqrt 2
      ∧ |f.center.1 - rectCornerEdgeX x w f.cornerIndex| = d / 2
      ∧ |f.center.2 - rectCornerEdgeY y h f.cornerIndex| = d / 2 := by
  have hd2 : (0:ℝ) ≤ d / 2 := by positivity
  have hdist : Real.sqrt (d / 2 * (d / 2) + d / 2 * (d / 2)) = d / 2 * Real.sqrt 2 := by
    rw [show d / 2 * (d / 2) + d / 2 * (d / 2) = (d / 2) ^ 2 * 2 by ring,
      Real.sqrt_mul (by positivity), Real.sqrt_sq hd2]
  rw [rectangleDogbones_eq x y w h d hw hh]
  intro f hf
  simp only [List.mem_cons, List.not_mem_nil, or_false] at hf
  rcases hf with rfl | rfl | rfl | rfl
  · refine ⟨rfl, ?_, ?_, ?_⟩
    · show Real.sqrt _ = _
      rw [show (x + d / 2 - (rectCornerPoint x y w h 0).1) *
            (x + d / 2 - (rectCornerPoint x y w h 0).1) +
            (y + d / 2 - (rectCornerPoint x y w h 0).2) *
            (y + d / 2 - (rectCornerPoint x y w h 0).2)
          = d / 2 * (d / 2) + d / 2 * (d / 2) by simp only [rectCornerPoint]; ring]
      exact hdist
    · simp only [rectCornerEdgeX]
      rw [show x + d / 2 - x = d / 2 by ring, abs_of_nonneg hd2]
    · simp only [rectCornerEdgeY]
      rw [show y + d / 2 - y = d / 2 by ring, abs_of_nonneg hd2]
  · refine ⟨rfl, ?_, ?_, ?_⟩
    · show Real.sqrt _ = _
      rw [show (x + w - d / 2 - (rectCornerPoint x y w h 1).1) *
            (x + w - d / 2 - (rectCornerPoint x y w h 1).1) +
            (y + d / 2 - (rectCornerPoint x y w h 1).2) *
            (y + d / 2 - (rectCornerPoint x y w h 1).2)
          = d / 2 * (d / 2) + d / 2 * (d / 2) by simp only [rectCornerPoint]; ring]
      exact hdist
    · simp only [rectCornerEdgeX]
      rw [show x + w - d / 2 - (x + w) = -(d / 2) by ring, abs_neg, abs_of_nonneg hd2]
    · simp only [rectCornerEdgeY]
      rw [show y + d / 2 - y = d / 2 by ring, abs_of_nonneg hd2]
  · refine ⟨rfl, ?_, ?_, ?_⟩
    · show Real.sqrt _ = _
      rw [show (x + w - d / 2 - (rectCornerPoint x y w h 2).1) *
            (x + w - d / 2 - (rectCornerPoint x y w h 2).1) +
            (y + h - d / 2 - (rectCornerPoint x y w h 2).2) *
            (y + h - d / 2 - (rectCornerPoint x y w h 2).2)
          = d / 2 * (d / 2) + d / 2 * (d / 2) by simp only [rectCornerPoint]; ring]
      exact hdist
    · simp only [rectCornerEdgeX]
      rw [show x + w - d / 2 - (x + w) = -(d / 2) by ring, abs_neg, abs_of_nonneg hd2]
    · simp only [rectCornerEdgeY]
      rw [show y + h - d / 2 - (y + h) = -(d / 2) by ring, abs_neg, abs_of_nonneg hd2]
  · refine ⟨rfl, ?_, ?_, ?_⟩
    · show Real.sqrt _ = _
      rw [show (x + d / 2 - (rectCornerPoint x y w h 3).1) *
            (x + d / 2 - (rectCornerPoint x y w h 3).1) +
            (y + h - d / 2 - (rectCornerPoint x y w h 3).2) *
            (y + h - d / 2 - (rectCornerPoint x y w h 3).2)
          = d / 2 * (d / 2) + d / 2 * (d / 2) by simp only [rectCornerPoint]; ring]
      exact hdist
    · simp only [rectCornerEdgeX]
      rw [show x + d / 2 - x = d / 2 by ring, abs_of_nonneg hd2]
    · simp only [rectCornerEdgeY]
      rw [show y + h - d / 2 - (y + h) = -(d / 2) by ring, abs_neg, abs_of_nonneg hd2]

/-- Witness for the amended C6 at the 10 x 10 pocket with a 2 mm bit. -/
theorem dogboneTangency_c6_amended_witness :
    (0:ℝ) < 10 ∧ (0:ℝ) < 10 ∧ (0:ℝ) < 2
    ∧ (∀ f ∈ generateRectangleDogbones 0 0 10 10 2,
        f.radius = 2 / 2
        ∧ dist2 f.center (rectCornerPoint 0 0 10 10 f.cornerIndex) = 2 / 2 * Real.sqrt 2
        ∧ |f.center.1 - rectCornerEdgeX 0 10 f.cornerIndex| = 2 / 2
        ∧ |f.center.2 - rectCornerEdgeY 0 10 f.cornerIndex| = 2 / 2) :=
  ⟨by norm_num, by norm_num, by norm_num,
    dogboneTangency_c6_amended 0 0 10 10 2 (by norm_num) (by norm_num) (by norm_num)⟩

/-! ## C9 — validation gating (corrected)

The thrown message is `"Invalid assembly configuration:\n"` followed by the
newline-joined error list — a header plus the join, not the join alone — so
the claim's "message is the newline-joined list" is off by the header, while
every error string does appear verbatim in the message. -/

/-- String concatenation concatenates the character data. -/
theorem data_append (s t : String) : (s ++ t).data = s.data ++ t.data := rfl

/-- Every member of a string list occurs verbatim inside its newline join. -/
theorem mem_joinNewline_infix (l : List String) (e : String) (he : e ∈ l) :
    ∃ pre post : List Char, (joinNewline l).data = pre ++ e.data ++ post := by
  induction l with
  | nil => cases he
  | cons s rest ih =>
    cases rest with
    | nil =>
      simp only [List.mem_singleton] at he
      subst he
      exact ⟨[], [], by simp [joinNewline]⟩
    | cons r rs =>
      rcases List.mem_cons.mp he with rfl | hmem
      · refine ⟨[], ("\n" ++ joinNewline (r :: rs)).data, ?_⟩
        show (e ++ "\n" ++ joinNewline (r :: rs)).data = _
        rw [data_append, data_append, data_append]
        simp [List.append_assoc]
      · obtain ⟨pre, post, hpp⟩ := ih hmem
        refine ⟨s.data ++ "\n".data ++ pre, post, ?_⟩
        show (s ++ "\n" ++ joinNewline (r :: rs)).data = _
        rw [data_append, data_append, hpp]
        simp [List.append_assoc]

/-- C9 counterexample: on the concrete invalid configuration `cfgBad`,
`buildAssembly` does not throw the bare newline-joined error list — the
thrown message carries the `"Invalid assembly configuration:"` header in
front of it. -/
theorem validationGating_c9_counterexample :
    buildAssembly cfgBad
      ≠ .error (joinNewline (validateConfig cfgBad).errors) := by
  have hbuild : buildAssembly cfgBad = .error ("Invalid assembly configuration:\n" ++
      joinNewline (validateConfig cfgBad).errors) := by
    simp [buildAssembly, cfgBad_invalid]
  rw [hbuild]
  intro hcon
  have hmsg : "Invalid assembly configuration:\n" ++
      joinNewline (validateConfig cfgBad).errors
      = joinNewline (validateConfig cfgBad).errors := by
    simpa using hcon
  have hlen := congrArg String.length hmsg
  rw [String.length_append] at hlen
  have h32 : ("Invalid assembly configuration:\n").length = 32 := rfl
  omega

/-- C9 (amended): `validate` is total and returns `valid` exactly when the
error list is empty; on every invalid configuration `build` throws (returns
no assembly), the thrown message being the fixed header
`"Invalid assembly configuration:"` followed by a newline and the
newline-joined validation errors, so every validation error string appears
verbatim in the thrown message. -/
theorem validationGating_c9 :
    (∀ config : AssemblyConfig,
      ((validateConfig config).valid = true ↔ (validateConfig config).errors = []))
    ∧ (∀ config : AssemblyConfig, (validateConfig config).valid = false →
        buildAssembly config = .error ("Invalid assembly configuration:\n" ++
            joinNewline (validateConfig config).errors)
        ∧ ∀ e ∈ (validateConfig config).errors, ∃ pre post : List Char,
            ("Invalid assembly configuration:\n" ++
              joinNewline (validateConfig config).errors).data = pre ++ e.data ++ post) := by
  constructor
  · intro config
    have e : (validateConfig config).valid
        = ((validateConfig config).errors.length == 0) := rfl
    rw [e]
    simp [List.length_eq_zero]
  · intro config hv
    constructor
    · simp [buildAssembly, hv]
    · intro e he
      obtain ⟨pre, post, hpp⟩ := mem_joinNewline_infix _ e he
      refine ⟨"Invalid assembly configuration:\n".data ++ pre, post, ?_⟩
      rw [data_append, hpp]
      simp [List.append_assoc]

/-- Witness for the amended C9 at the concrete invalid configuration. -/
theorem validationGating_c9_witness :
    ((validateConfig cfgBad).valid = true ↔ (validateConfig cfgBad).errors = [])
    ∧ (validateConfig cfgBad).valid = false
    ∧ (buildAssembly cfgBad = .error ("Invalid assembly configuration:\n" ++
          joinNewline (validateConfig cfgBad).errors)
      ∧ ∀ e ∈ (validateConfig cfgBad).errors, ∃ pre post : List Char,
          ("Invalid assembly configuration:\n" ++
            joinNewline (validateConfig cfgBad).errors).data = pre ++ e.data ++ post) :=
  ⟨validationGating_c9.1 cfgBad, cfgBad_invalid,
    validationGating_c9.2 cfgBad cfgBad_invalid⟩

/-! ## Feature classification lemmas (shared helpers)

Every pre-drill, shelf-pin, runner and pull feature is a hole or countersink,
never a slot; the only slots the pipeline produces are the back-panel dados,
the fixed-shelf dados and the drawer-bottom dados. -/

theorem not_slot_predrillEdge (e dist : ℚ) (pc : AssemblyPredrillConfig) :
    ∀ f ∈ generateAssemblyPredrillsForEdge e dist pc, isSlotFeature f = false := by
  intro f hf
  unfold generateAssemblyPredrillsForEdge at hf
  try dsimp only at hf
  split at hf
  · cases hf
  · simp only [List.mem_flatMap, List.mem_range, List.mem_cons] at hf
    obtain ⟨i, _, hf⟩ := hf
    rcases hf with rfl | hf
    · rfl
    · split at hf
      · simp only [List.mem_singleton] at hf
        subst hf
        rfl
      · cases hf

theorem not_slot_sidePanelAssemblyPredrills (config : AssemblyConfig)
    (ph pd : ℚ) (b : Bool) :
    ∀ f ∈ generateSidePanelAssemblyPredrills config ph pd b,
      isSlotFeature f = false := by
  intro f hf
  unfold generateSidePanelAssemblyPredrills at hf
  try dsimp only at hf
  split at hf
  · cases hf
  · rcases List.mem_append.mp hf with h | h
    · exact not_slot_predrillEdge _ _ _ f h
    · exact not_slot_predrillEdge _ _ _ f h

theorem not_slot_slideLoop (fo hs sy dia pd : ℚ) :
    ∀ n i, ∀ f ∈ slidePredrillHolesLoop fo hs sy dia pd n i,
      isSlotFeature f = false := by
  intro n
  induction n with
  | zero => intro i f hf; cases hf
  | succ n ih =>
    intro i f hf
    unfold slidePredrillHolesLoop at hf
    try dsimp only at hf
    split at hf
    · cases hf
    · rcases List.mem_cons.mp hf with rfl | h
      · rfl
      · exact ih (i + 1) f h

theorem not_slot_slidePredrillsForDrawer (dby pd : ℚ) (sc : SlidePredrillConfig) :
    ∀ f ∈ generateSlidePredrillsForDrawer dby pd sc, isSlotFeature f = false := by
  intro f hf
  unfold generateSlidePredrillsForDrawer at hf
  try dsimp only at hf
  split at hf
  · cases hf
  · exact not_slot_slideLoop _ _ _ _ _ _ _ f hf

theorem not_slot_sidePanelSlidePredrills (config : AssemblyConfig) (ph pd : ℚ) :
    ∀ f ∈ generateSidePanelSlidePredrills config ph pd, isSlotFeature f = false := by
  intro f hf
  unfold generateSidePanelSlidePredrills at hf
  try dsimp only at hf
  split at hf
  · cases hf
  · split at hf
    · cases hf
    · simp only [List.mem_flatMap, List.mem_range] at hf
      obtain ⟨i, _, hf⟩ := hf
      exact not_slot_slidePredrillsForDrawer _ _ _ f hf

theorem not_slot_leftPanelBase (config : AssemblyConfig) :
    ∀ f ∈ (generateLeftSidePanel config).features, isSlotFeature f = false := by
  intro f hf
  unfold generateLeftSidePanel at hf
  try dsimp only at hf
  simp only [List.mem_append] at hf
  rcases hf with (hf | hf) | hf
  · split at hf
    · simp only [List.mem_singleton] at hf
      subst hf
      rfl
    · cases hf
  · exact not_slot_sidePanelAssemblyPredrills _ _ _ _ f hf
  · exact not_slot_sidePanelSlidePredrills _ _ _ f hf

theorem not_slot_rightPanelBase (config : AssemblyConfig) :
    ∀ f ∈ (generateRightSidePanel config).features, isSlotFeature f = false := by
  intro f hf
  unfold generateRightSidePanel at hf
  try dsimp only at hf
  simp only [List.mem_append] at hf
  rcases hf with (hf | hf) | hf
  · split at hf
    · simp only [List.mem_singleton] at hf
      subst hf
      rfl
    · cases hf
  · exact not_slot_sidePanelAssemblyPredrills _ _ _ _ f hf
  · exact not_slot_sidePanelSlidePredrills _ _ _ f hf

theorem not_slot_shelfHoles (config : AssemblyConfig) (side : Side) :
    ∀ f ∈ generateSidePanelShelfHoles config side, isSlotFeature f = false := by
  intro f hf
  unfold generateSidePanelShelfHoles at hf
  try dsimp only at hf
  split at hf
  · cases hf
  · split at hf
    · cases hf
    · simp only [List.mem_append, List.mem_map] at hf
      rcases hf with ⟨p, _, rfl⟩ | ⟨p, _, rfl⟩ <;> rfl

theorem not_slot_runnerHoles (config : AssemblyConfig) (side : Side) :
    ∀ f ∈ generateSidePanelRunnerHoles config side, isSlotFeature f = false := by
  intro f hf
  unfold generateSidePanelRunnerHoles at hf
  try dsimp only at hf
  split at hf
  · cases hf
  · simp only [List.mem_flatMap, List.mem_map, List.mem_range] at hf
    obtain ⟨p, _, i, _, rfl⟩ := hf
    rfl

theorem not_slot_pullHoles (fw fh : ℚ) (pc : DrawerPullConfig) :
    ∀ f ∈ generateDrawerPullHoles fw fh pc, isSlotFeature f = false := by
  intro f hf
  unfold generateDrawerPullHoles at hf
  try dsimp only at hf
  rcases hty : pc.type
  all_goals rw [hty] at hf
  · cases hf
  · simp only [List.mem_singleton] at hf
    subst hf
    rfl
  · simp only [List.mem_cons, List.not_mem_nil, or_false] at hf
    rcases hf with rfl | rfl <;> rfl

/-! ## Dado-width lemmas (shared helpers) -/

theorem addFeatures_features (c : Component) (fs : List Feature) :
    (addFeatures c fs).features = c.features ++ fs := rfl

theorem addFeatures_layer (c : Component) (fs : List Feature) :
    (addFeatures c fs).layer = c.layer := rfl

theorem addFeatures_rotation (c : Component) (fs : List Feature) :
    (addFeatures c fs).rotation = c.rotation := rfl

theorem addFeatures_role (c : Component) (fs : List Feature) :
    (addFeatures c fs).role = c.role := rfl

theorem dadoWidthOk_of_not_slot (config : AssemblyConfig) (f : Feature)
    (h : isSlotFeature f = false) : DadoWidthOk config f := by
  intro w dp path pu heq
  subst heq
  simp [isSlotFeature] at h

theorem dadoWidthOk_slot_dado_back (config : AssemblyConfig) (dp : ℚ)
    (p : List Vector2) :
    DadoWidthOk config (Feature.slot (getBackPanelThickness config) dp p .dado) := by
  intro w dp' path pu heq
  simp only [Feature.slot.injEq] at heq
  obtain ⟨hw, _, _, hpu⟩ := heq
  constructor
  · intro _
    left
    exact hw.symm
  · intro hpu2
    rw [← hpu] at hpu2
    cases hpu2

theorem dadoWidthOk_slot_dado_fixed (config : AssemblyConfig) (dp : ℚ)
    (p : List Vector2) :
    DadoWidthOk config (Feature.slot (fixedShelfThicknessOf config) dp p .dado) := by
  intro w dp' path pu heq
  simp only [Feature.slot.injEq] at heq
  obtain ⟨hw, _, _, hpu⟩ := heq
  constructor
  · intro _
    right
    exact hw.symm
  · intro hpu2
    rw [← hpu] at hpu2
    cases hpu2

theorem dadoWidthOk_slot_drawerBottom (config : AssemblyConfig) (dp : ℚ)
    (p : List Vector2) :
    DadoWidthOk config (Feature.slot (getDrawerBottomThickness config) dp p
      .drawer_bottom) := by
  intro w dp' path pu heq
  simp only [Feature.slot.injEq] at heq
  obtain ⟨hw, _, _, hpu⟩ := heq
  constructor
  · intro hpu2
    rw [← hpu] at hpu2
    cases hpu2
  · intro _
    exact hw.symm

theorem mem_fixedDados (config : AssemblyConfig) (side : Side) :
    ∀ f ∈ generateSidePanelFixedShelfDados config side,
      ∃ yv : ℚ, f = Feature.slot (fixedShelfThicknessOf config)
        (fixedDadoDepthOf config) [(10, yv), (config.globalBounds.d - 10, yv)] .dado := by
  intro f hf
  unfold generateSidePanelFixedShelfDados at hf
  try dsimp only at hf
  split at hf
  · cases hf
  · simp only [List.mem_map] at hf
    obtain ⟨p, _, rfl⟩ := hf
    exact ⟨_, rfl⟩

theorem dadoWidthOk_sidePanel (config : AssemblyConfig) (side : Side) :
    ∀ f ∈ (sidePanelWithFeatures config side).features, DadoWidthOk config f := by
  intro f hf
  unfold sidePanelWithFeatures at hf
  try dsimp only at hf
  simp only [addFeatures_features, List.mem_append] at hf
  rcases hf with hb | (((hs | hr) | hfix) | hbd)
  · apply dadoWidthOk_of_not_slot
    cases side
    · exact not_slot_leftPanelBase config f hb
    · exact not_slot_rightPanelBase config f hb
  · apply dadoWidthOk_of_not_slot
    split at hs
    · exact not_slot_shelfHoles config side f hs
    · cases hs
  · apply dadoWidthOk_of_not_slot
    split at hr
    · exact not_slot_runnerHoles config side f hr
    · cases hr
  · split at hfix
    · obtain ⟨yv, rfl⟩ := mem_fixedDados config side f hfix
      exact dadoWidthOk_slot_dado_fixed config _ _
    · cases hfix
  · split at hbd
    · simp only [List.mem_singleton] at hbd
      subst hbd
      exact dadoWidthOk_slot_dado_back config _ _
    · cases hbd

/-! ## Per-generator component facts and the assembly case split (shared) -/

theorem adjustableShelves_fields (config : AssemblyConfig) :
    ∀ c ∈ generateAdjustableShelves config,
      c.role = .adjustable_shelf ∧ c.layer = .OUTSIDE_CUT ∧ c.rotation = ⟨0, 0, 0⟩
      ∧ c.features = [] := by
  intro c hc
  unfold generateAdjustableShelves at hc
  try dsimp only at hc
  split at hc
  · cases hc
  · simp only [List.mem_map, List.mem_range] at hc
    obtain ⟨i, _, rfl⟩ := hc
    exact ⟨rfl, rfl, rfl, rfl⟩

theorem fixedShelves_fields (config : AssemblyConfig) :
    ∀ c ∈ generateFixedShelves config,
      c.role = .fixed_shelf ∧ c.layer = .OUTSIDE_CUT ∧ c.rotation = ⟨0, 0, 0⟩
      ∧ c.features = [] ∧ c.materialThickness = fixedShelfThicknessOf config := by
  intro c hc
  unfold generateFixedShelves at hc
  try dsimp only at hc
  split at hc
  · cases hc
  · simp only [List.mem_map] at hc
    obtain ⟨pi, _, rfl⟩ := hc
    exact ⟨rfl, rfl, rfl, rfl, rfl⟩

theorem toeKickPanel_fields (config : AssemblyConfig) :
    ∀ c ∈ (generateToeKickPanel config).toList,
      c.role = .toe_kick_panel ∧ c.layer = .OUTSIDE_CUT ∧ c.rotation = ⟨0, 0, 0⟩
      ∧ c.features = [] := by
  intro c hc
  unfold generateToeKickPanel at hc
  split at hc
  · simp only [Option.toList_some, List.mem_singleton] at hc
    subst hc
    exact ⟨rfl, rfl, rfl, rfl⟩
  · cases hc

theorem backPanel_fields (config : AssemblyConfig) :
    ∀ c ∈ (generateBackPanel config).toList,
      c.role = .back_panel ∧ c.layer = .OUTSIDE_CUT ∧ c.rotation = ⟨0, 0, 0⟩
      ∧ c.features = [] := by
  intro c hc
  unfold generateBackPanel at hc
  rcases hty : config.backPanel.type
  all_goals rw [hty] at hc
  · simp only [Option.toList_some, List.mem_singleton] at hc
    subst hc
    exact ⟨rfl, rfl, rfl, rfl⟩
  · simp only [Option.toList_some, List.mem_singleton] at hc
    subst hc
    exact ⟨rfl, rfl, rfl, rfl⟩
  · cases hc

theorem drawers_fields (config : AssemblyConfig) :
    ∀ c ∈ generateDrawers config,
      (c.role = .drawer_front ∨ c.role = .drawer_side ∨ c.role = .drawer_back
        ∨ c.role = .drawer_bottom)
      ∧ c.layer = .OUTSIDE_CUT ∧ c.rotation = ⟨0, 0, 0⟩
      ∧ (∀ f ∈ c.features, DadoWidthOk config f) := by
  intro c hc
  unfold generateDrawers at hc
  try dsimp only at hc
  split at hc
  · cases hc
  · simp only [List.mem_flatMap, List.mem_range] at hc
    obtain ⟨i, _, hc⟩ := hc
    unfold generateDrawer at hc
    rcases List.mem_cons.mp hc with rfl | hc
    · refine ⟨Or.inl rfl, rfl, rfl, ?_⟩
      intro f hf
      apply dadoWidthOk_of_not_slot
      exact not_slot_pullHoles _ _ _ f hf
    · rcases List.mem_append.mp hc with hc | hc
      · unfold generateDrawerSides at hc
        try dsimp only at hc
        simp only [List.mem_cons, List.not_mem_nil, or_false] at hc
        rcases hc with rfl | rfl
        · refine ⟨Or.inr (Or.inl rfl), rfl, rfl, ?_⟩
          intro f hf
          simp only [List.mem_singleton] at hf
          subst hf
          exact dadoWidthOk_slot_drawerBottom config _ _
        · refine ⟨Or.inr (Or.inl rfl), rfl, rfl, ?_⟩
          intro f hf
          simp only [List.mem_singleton] at hf
          subst hf
          exact dadoWidthOk_slot_drawerBottom config _ _
      · simp only [List.mem_cons, List.not_mem_nil, or_false] at hc
        rcases hc with rfl | rfl
        · exact ⟨Or.inr (Or.inr (Or.inl rfl)), rfl, rfl, fun f hf => by cases hf⟩
        · exact ⟨Or.inr (Or.inr (Or.inr rfl)), rfl, rfl, fun f hf => by cases hf⟩

theorem assemblyComponents_cases (config : AssemblyConfig) (c : Component)
    (hc : c ∈ assemblyComponents config) :
    c = sidePanelWithFeatures config .left ∨ c = sidePanelWithFeatures config .right
    ∨ (requiresDados config = true ∧
        (c = addFeatures (generateTopPanel config)
            [generateHorizontalBackPanelDado config .top]
        ∨ c = addFeatures (generateBottomPanel config)
            [generateHorizontalBackPanelDado config .bottom]))
    ∨ (requiresDados config = false ∧
        (c = generateTopPanel config ∨ c = generateBottomPanel config))
    ∨ c ∈ (generateBackPanel config).toList
    ∨ c ∈ (generateToeKickPanel config).toList
    ∨ c ∈ generateAdjustableShelves config
    ∨ c ∈ generateFixedShelves config
    ∨ c ∈ generateDrawers config := by
  unfold assemblyComponents generateShelves at hc
  simp only [List.mem_append] at hc
  rcases hc with (((hc | hc) | hc) | (hc | hc)) | hc
  · unfold generateCarcassWithFeatures at hc
    simp only [List.mem_append, List.mem_cons, List.not_mem_nil, or_false] at hc
    rcases hc with (rfl | rfl) | hc
    · exact Or.inl rfl
    · exact Or.inr (Or.inl rfl)
    · by_cases hreq : requiresDados config
      · rw [if_pos hreq] at hc
        simp only [List.mem_cons, List.not_mem_nil, or_false] at hc
        exact Or.inr (Or.inr (Or.inl ⟨hreq, hc⟩))
      · rw [if_neg hreq] at hc
        simp only [List.mem_cons, List.not_mem_nil, or_false] at hc
        exact Or.inr (Or.inr (Or.inr (Or.inl ⟨Bool.eq_false_iff.mpr hreq, hc⟩)))
  · exact Or.inr (Or.inr (Or.inr (Or.inr (Or.inl hc))))
  · exact Or.inr (Or.inr (Or.inr (Or.inr (Or.inr (Or.inl hc)))))
  · exact Or.inr (Or.inr (Or.inr (Or.inr (Or.inr (Or.inr (Or.inl hc))))))
  · exact Or.inr (Or.inr (Or.inr (Or.inr (Or.inr (Or.inr (Or.inr (Or.inl hc)))))))
  · exact Or.inr (Or.inr (Or.inr (Or.inr (Or.inr (Or.inr (Or.inr (Or.inr hc)))))))

/-! ## C10 — every component is an unrotated OUTSIDE_CUT part -/

/-- C10: for every valid configuration, every component of the built assembly
has `layer = OUTSIDE_CUT` and identity rotation; drilling and dado information
lives only in `Feature` entries, so filtering on `OUTSIDE_CUT` selects every
component. -/
theorem layerRotation_c10 (config : AssemblyConfig)
    (hv : (validateConfig config).valid = true) :
    ∀ c ∈ assemblyComponents config,
      c.layer = .OUTSIDE_CUT ∧ c.rotation = ⟨0, 0, 0⟩ := by
  intro c hc
  rcases assemblyComponents_cases config c hc with
    rfl | rfl | ⟨_, rfl | rfl⟩ | ⟨_, rfl | rfl⟩ | hb | ht | ha | hfx | hd
  · exact ⟨rfl, rfl⟩
  · exact ⟨rfl, rfl⟩
  · exact ⟨rfl, rfl⟩
  · exact ⟨rfl, rfl⟩
  · exact ⟨rfl, rfl⟩
  · exact ⟨rfl, rfl⟩
  · obtain ⟨_, h2, h3, _⟩ := backPanel_fields config c hb
    exact ⟨h2, h3⟩
  · obtain ⟨_, h2, h3, _⟩ := toeKickPanel_fields config c ht
    exact ⟨h2, h3⟩
  · obtain ⟨_, h2, h3, _⟩ := adjustableShelves_fields config c ha
    exact ⟨h2, h3⟩
  · obtain ⟨_, h2, h3, _, _⟩ := fixedShelves_fields config c hfx
    exact ⟨h2, h3⟩
  · obtain ⟨_, h2, h3, _⟩ := drawers_fields config c hd
    exact ⟨h2, h3⟩

/-! ## C1 — dado widths match the inserted panel's material thickness -/

/-- C1: in every assembly built from a valid configuration, each
purpose-`dado` slot is either a back-panel dado of width
`secondaryMaterial.backPanelThickness ?? backPanel.thickness`
(`getBackPanelThickness`) or a fixed-shelf dado of width equal to the fixed
shelf material thickness, and each drawer-bottom slot has width
`secondaryMaterial.drawerBottomThickness ?? default`; in each case the width
equals the inserted component's `materialThickness` (inset back panel, fixed
shelf, drawer bottom respectively), never an unrelated thickness. -/
theorem dadoWidth_c1 (config : AssemblyConfig)
    (hv : (validateConfig config).valid = true) :
    (∀ c ∈ assemblyComponents config, ∀ f ∈ c.features, DadoWidthOk config f)
    ∧ (∀ side, slotWidthOf (generateBackPanelDado config side)
        = getBackPanelThickness config)
    ∧ (∀ p, slotWidthOf (generateHorizontalBackPanelDado config p)
        = getBackPanelThickness config)
    ∧ (generateInsetBackPanel config).materialThickness = getBackPanelThickness config
    ∧ (∀ side, ∀ f ∈ generateSidePanelFixedShelfDados config side,
        slotWidthOf f = fixedShelfThicknessOf config)
    ∧ (∀ c ∈ generateFixedShelves config,
        c.materialThickness = fixedShelfThicknessOf config)
    ∧ (∀ i n : ℕ, ∀ cs ∈ generateDrawerSides config i n, ∀ f ∈ cs.features,
        slotWidthOf f = getDrawerBottomThickness config)
    ∧ (∀ i n : ℕ, (generateDrawerBottom config i n).materialThickness
        = getDrawerBottomThickness config) := by
  refine ⟨?_, fun _ => rfl, fun _ => rfl, rfl, ?_, ?_, ?_, fun _ _ => rfl⟩
  · intro c hc f hf
    rcases assemblyComponents_cases config c hc with
      rfl | rfl | ⟨_, rfl | rfl⟩ | ⟨_, rfl | rfl⟩ | hb | ht | ha | hfx | hd
    · exact dadoWidthOk_sidePanel config .left f hf
    · exact dadoWidthOk_sidePanel config .right f hf
    · rw [addFeatures_features] at hf
      rcases List.mem_append.mp hf with hf | hf
      · cases hf
      · simp only [List.mem_singleton] at hf
        subst hf
        exact dadoWidthOk_slot_dado_back config _ _
    · rw [addFeatures_features] at hf
      rcases List.mem_append.mp hf with hf | hf
      · cases hf
      · simp only [List.mem_singleton] at hf
        subst hf
        exact dadoWidthOk_slot_dado_back config _ _
    · cases hf
    · cases hf
    · obtain ⟨_, _, _, hfeat⟩ := backPanel_fields config c hb
      rw [hfeat] at hf
      cases hf
    · obtain ⟨_, _, _, hfeat⟩ := toeKickPanel_fields config c ht
      rw [hfeat] at hf
      cases hf
    · obtain ⟨_, _, _, hfeat⟩ := adjustableShelves_fields config c ha
      rw [hfeat] at hf
      cases hf
    · obtain ⟨_, _, _, hfeat, _⟩ := fixedShelves_fields config c hfx
      rw [hfeat] at hf
      cases hf
    · obtain ⟨_, _, _, hok⟩ := drawers_fields config c hd
      exact hok f hf
  · intro side f hffix
    obtain ⟨yv, rfl⟩ := mem_fixedDados config side f hffix
    rfl
  · intro c hcf
    exact (fixedShelves_fields config c hcf).2.2.2.2
  · intro i n cs hcs f hf
    unfold generateDrawerSides at hcs
    try dsimp only at hcs
    simp only [List.mem_cons, List.not_mem_nil, or_false] at hcs
    rcases hcs with rfl | rfl
    · simp only [List.mem_singleton] at hf
      subst hf
      rfl
    · simp only [List.mem_singleton] at hf
      subst hf
      rfl

/-! ## Validity extraction and the inset component list (shared helpers) -/

theorem validateConfig_errors_nil (config : AssemblyConfig)
    (hv : (validateConfig config).valid = true) :
    (validateConfig config).errors = [] := by
  have e : (validateConfig config).valid
      = ((validateConfig config).errors.length == 0) := rfl
  rw [e] at hv
  simpa [List.length_eq_zero] using hv

theorem ite_singleton_ne_nil {α : Type} {c : Prop} [Decidable c] {a : α}
    (h : (if c then [a] else []) = []) : ¬c := by
  intro hc
  rw [if_pos hc] at h
  cases h

theorem valid_not_depth_lt (config : AssemblyConfig)
    (hv : (validateConfig config).valid = true) :
    ¬ config.globalBounds.d < 100 := by
  have he := validateConfig_errors_nil config hv
  have hcar : validateCarcassConfig config = [] := by
    have e2 : (validateConfig config).errors
        = validateCarcassConfig config ++ validateBackPanelConfig config ++
          validateShelfConfig config ++ validateDrawerConfig config := rfl
    rw [e2] at he
    exact (List.append_eq_nil.mp
      (List.append_eq_nil.mp (List.append_eq_nil.mp he).1).1).1
  unfold validateCarcassConfig at hcar
  try dsimp only at hcar
  have h1 := List.append_eq_nil.mp hcar
  have h2 := List.append_eq_nil.mp h1.1
  have h3 := List.append_eq_nil.mp h2.1
  exact ite_singleton_ne_nil h3.2

theorem assemblyComponents_inset (config : AssemblyConfig)
    (hinset : config.backPanel.type = .inset) :
    assemblyComponents config =
      [sidePanelWithFeatures config .left, sidePanelWithFeatures config .right,
       addFeatures (generateTopPanel config) [generateHorizontalBackPanelDado config .top],
       addFeatures (generateBottomPanel config) [generateHorizontalBackPanelDado config .bottom]]
      ++ [generateInsetBackPanel config]
      ++ (generateToeKickPanel config).toList
      ++ generateShelves config
      ++ generateDrawers config := by
  have hreq : requiresDados config = true := by simp [requiresDados, hinset]
  have h1 : generateCarcassWithFeatures config
      = [sidePanelWithFeatures config .left, sidePanelWithFeatures config .right,
         addFeatures (generateTopPanel config) [generateHorizontalBackPanelDado config .top],
         addFeatures (generateBottomPanel config)
           [generateHorizontalBackPanelDado config .bottom]] := by
    simp [generateCarcassWithFeatures, hreq]
  have h2 : generateBackPanel config = some (generateInsetBackPanel config) := by
    simp [generateBackPanel, hinset]
  unfold assemblyComponents
  rw [h1, h2]
  rfl

theorem filter_role_eq_nil {l : List Component} {r : ComponentRole}
    (h : ∀ c ∈ l, c.role ≠ r) :
    l.filter (fun c => decide (c.role = r)) = [] := by
  rw [List.filter_eq_nil_iff]
  intro c hc
  simp [h c hc]

theorem filter_vdado_eq_nil {l : List Feature}
    (h : ∀ f ∈ l, isSlotFeature f = false) :
    l.filter isVerticalDadoSlot = [] := by
  rw [List.filter_eq_nil_iff]
  intro f hf
  have hns := h f hf
  cases f <;> simp_all [isSlotFeature, isVerticalDadoSlot]

theorem sidePanel_verticalDado_filter (config : AssemblyConfig)
    (hv : (validateConfig config).valid = true) (side : Side) :
    (sidePanelWithFeatures config side).features.filter isVerticalDadoSlot
      = if requiresDados config then [generateBackPanelDado config side] else [] := by
  have hd100 : ¬ config.globalBounds.d < 100 := valid_not_depth_lt config hv
  have hd20 : ¬ (10 : ℚ) = config.globalBounds.d - 10 := by
    intro h
    apply hd100
    have : config.globalBounds.d = 20 := by linarith
    rw [this]
    norm_num
  have hbase : ∀ f ∈ (match side with
      | Side.left => generateLeftSidePanel config
      | Side.right => generateRightSidePanel config).features,
      isSlotFeature f = false := by
    cases side
    · exact not_slot_leftPanelBase config
    · exact not_slot_rightPanelBase config
  unfold sidePanelWithFeatures
  try dsimp only
  rw [addFeatures_features]
  rw [List.filter_append, List.filter_append, List.filter_append, List.filter_append]
  rw [filter_vdado_eq_nil hbase]
  rw [filter_vdado_eq_nil (l := if config.features.shelves.adjustable.enabled
      then generateSidePanelShelfHoles config side else []) (by
    intro f hf
    split at hf
    · exact not_slot_shelfHoles config side f hf
    · cases hf)]
  rw [filter_vdado_eq_nil (by
    intro f hf
    split at hf
    · exact not_slot_runnerHoles config side f hf
    · cases hf)]
  have hfix : (if config.features.shelves.fixed.enabled
        && !config.features.shelves.fixed.positions.isEmpty
      then generateSidePanelFixedShelfDados config side
      else []).filter isVerticalDadoSlot = [] := by
    rw [List.filter_eq_nil_iff]
    intro f hf
    split at hf
    · obtain ⟨yv, rfl⟩ := mem_fixedDados config side f hf
      simp [isVerticalDadoSlot, hd20]
    · cases hf
  rw [hfix]
  have hbd : (if requiresDados config
        then [generateBackPanelDado config side] else []).filter isVerticalDadoSlot
      = if requiresDados config then [generateBackPanelDado config side] else [] := by
    split
    · rw [List.filter_cons]
      simp [isVerticalDadoSlot, generateBackPanelDado]
    · rfl
  rw [hbd]
  simp

/-! ## C8 — inset back panel and its four dados -/

/-- C8: for every valid configuration with an inset back panel, the back
panel's width is `(w - 2t) + 2*dadoDepth` and height
`(h - 2t - toeKick) + 2*dadoDepth`; the built assembly contains exactly one
back panel and one panel of each carcass role, each side panel carries
exactly one vertical dado slot (the back-panel dado) and the top and bottom
panels exactly one dado slot each, horizontal — four injected dado slots in
all, each of depth `dadoDepth` and width equal to the back-panel material
thickness. -/
theorem insetBackPanel_c8 (config : AssemblyConfig)
    (hv : (validateConfig config).valid = true)
    (hinset : config.backPanel.type = .inset) :
    ((generateInsetBackPanel config).dimensions.x
        = config.globalBounds.w - 2 * config.material.thickness + 2 * backDadoDepthOf config
      ∧ (generateInsetBackPanel config).dimensions.y
        = config.globalBounds.h - 2 * config.material.thickness - toeKickHeightOf config
          + 2 * backDadoDepthOf config)
    ∧ (assemblyComponents config).filter (fun c => decide (c.role = .back_panel))
        = [generateInsetBackPanel config]
    ∧ (assemblyComponents config).filter (fun c => decide (c.role = .side_panel_left))
        = [sidePanelWithFeatures config .left]
    ∧ (assemblyComponents config).filter (fun c => decide (c.role = .side_panel_right))
        = [sidePanelWithFeatures config .right]
    ∧ (assemblyComponents config).filter (fun c => decide (c.role = .top_panel))
        = [addFeatures (generateTopPanel config)
            [generateHorizontalBackPanelDado config .top]]
    ∧ (assemblyComponents config).filter (fun c => decide (c.role = .bottom_panel))
        = [addFeatures (generateBottomPanel config)
            [generateHorizontalBackPanelDado config .bottom]]
    ∧ (∀ side, (sidePanelWithFeatures config side).features.filter isVerticalDadoSlot
          = [generateBackPanelDado config side]
      ∧ slotWidthOf (generateBackPanelDado config side) = getBackPanelThickness config
      ∧ slotDepthOf (generateBackPanelDado config side) = backDadoDepthOf config)
    ∧ (∀ tb, (addFeatures (match tb with
            | TopBottom.top => generateTopPanel config
            | TopBottom.bottom => generateBottomPanel config)
          [generateHorizontalBackPanelDado config tb]).features.filter isDadoSlot
          = [generateHorizontalBackPanelDado config tb]
      ∧ isHorizontalDadoSlot (generateHorizontalBackPanelDado config tb) = true
      ∧ slotWidthOf (generateHorizontalBackPanelDado config tb)
          = getBackPanelThickness config
      ∧ slotDepthOf (generateHorizontalBackPanelDado config tb)
          = backDadoDepthOf config) := by
  have hreq : requiresDados config = true := by simp [requiresDados, hinset]
  have hLrole : (sidePanelWithFeatures config Side.left).role = .side_panel_left := rfl
  have hRrole : (sidePanelWithFeatures config Side.right).role = .side_panel_right := rfl
  have hTrole : (addFeatures (generateTopPanel config)
      [generateHorizontalBackPanelDado config .top]).role = .top_panel := rfl
  have hBrole : (addFeatures (generateBottomPanel config)
      [generateHorizontalBackPanelDado config .bottom]).role = .bottom_panel := rfl
  have hIrole : (generateInsetBackPanel config).role = .back_panel := rfl
  have hshelves : ∀ c ∈ generateShelves config,
      c.role = .adjustable_shelf ∨ c.role = .fixed_shelf := by
    intro c hc
    have hc' : c ∈ generateAdjustableShelves config ++ generateFixedShelves config := hc
    rcases List.mem_append.mp hc' with h | h
    · exact Or.inl (adjustableShelves_fields config c h).1
    · exact Or.inr (fixedShelves_fields config c h).1
  refine ⟨⟨rfl, rfl⟩, ?_, ?_, ?_, ?_, ?_, ?_, ?_⟩
  · rw [assemblyComponents_inset config hinset]
    simp only [List.filter_append]
    rw [filter_role_eq_nil (l := (generateToeKickPanel config).toList) (fun c hc => by
      rw [(toeKickPanel_fields config c hc).1]; decide)]
    rw [filter_role_eq_nil (l := generateShelves config) (fun c hc => by
      rcases hshelves c hc with h | h <;> rw [h] <;> decide)]
    rw [filter_role_eq_nil (l := generateDrawers config) (fun c hc => by
      rcases (drawers_fields config c hc).1 with h | h | h | h <;> rw [h] <;> decide)]
    simp [List.filter_cons, hLrole, hRrole, hTrole, hBrole, hIrole]
  · rw [assemblyComponents_inset config hinset]
    simp only [List.filter_append]
    rw [filter_role_eq_nil (l := (generateToeKickPanel config).toList) (fun c hc => by
      rw [(toeKickPanel_fields config c hc).1]; decide)]
    rw [filter_role_eq_nil (l := generateShelves config) (fun c hc => by
      rcases hshelves c hc with h | h <;> rw [h] <;> decide)]
    rw [filter_role_eq_nil (l := generateDrawers config) (fun c hc => by
      rcases (drawers_fields config c hc).1 with h | h | h | h <;> rw [h] <;> decide)]
    simp [List.filter_cons, hLrole, hRrole, hTrole, hBrole, hIrole]
  · rw [assemblyComponents_inset config hinset]
    simp only [List.filter_append]
    rw [filter_role_eq_nil (l := (generateToeKickPanel config).toList) (fun c hc => by
      rw [(toeKickPanel_fields config c hc).1]; decide)]
    rw [filter_role_eq_nil (l := generateShelves config) (fun c hc => by
      rcases hshelves c hc with h | h <;> rw [h] <;> decide)]
    rw [filter_role_eq_nil (l := generateDrawers config) (fun c hc => by
      rcases (drawers_fields config c hc).1 with h | h | h | h <;> rw [h] <;> decide)]
    simp [List.filter_cons, hLrole, hRrole, hTrole, hBrole, hIrole]
  · rw [assemblyComponents_inset config hinset]
    simp only [List.filter_append]
    rw [filter_role_eq_nil (l := (generateToeKickPanel config).toList) (fun c hc => by
      rw [(toeKickPanel_fields config c hc).1]; decide)]
    rw [filter_role_eq_nil (l := generateShelves config) (fun c hc => by
      rcases hshelves c hc with h | h <;> rw [h] <;> decide)]
    rw [filter_role_eq_nil (l := generateDrawers config) (fun c hc => by
      rcases (drawers_fields config c hc).1 with h | h | h | h <;> rw [h] <;> decide)]
    simp [List.filter_cons, hLrole, hRrole, hTrole, hBrole, hIrole]
  · rw [assemblyComponents_inset config hinset]
    simp only [List.filter_append]
    rw [filter_role_eq_nil (l := (generateToeKickPanel config).toList) (fun c hc => by
      rw [(toeKickPanel_fields config c hc).1]; decide)]
    rw [filter_role_eq_nil (l := generateShelves config) (fun c hc => by
      rcases hshelves c hc with h | h <;> rw [h] <;> decide)]
    rw [filter_role_eq_nil (l := generateDrawers config) (fun c hc => by
      rcases (drawers_fields config c hc).1 with h | h | h | h <;> rw [h] <;> decide)]
    simp [List.filter_cons, hLrole, hRrole, hTrole, hBrole, hIrole]
  · intro side
    refine ⟨?_, rfl, rfl⟩
    rw [sidePanel_verticalDado_filter config hv side, if_pos hreq]
  · intro tb
    refine ⟨?_, ?_, rfl, rfl⟩
    · rw [addFeatures_features]
      cases tb
      · rw [show (generateTopPanel config).features = [] from rfl]
        rw [List.nil_append, List.filter_cons]
        simp [isDadoSlot, generateHorizontalBackPanelDado]
      · rw [show (generateBottomPanel config).features = [] from rfl]
        rw [List.nil_append, List.filter_cons]
        simp [isDadoSlot, generateHorizontalBackPanelDado]
    · simp [isHorizontalDadoSlot, generateHorizontalBackPanelDado]

/-- Witness for C10 at the default configuration. -/
theorem layerRotation_c10_witness :
    (validateConfig cfgDefault).valid = true
    ∧ (∀ c ∈ assemblyComponents cfgDefault,
        c.layer = .OUTSIDE_CUT ∧ c.rotation = ⟨0, 0, 0⟩) :=
  ⟨cfgDefault_valid, layerRotation_c10 cfgDefault cfgDefault_valid⟩

/-- Witness for C1 at the default configuration. -/
theorem dadoWidth_c1_witness :
    (validateConfig cfgDefault).valid = true
    ∧ ((∀ c ∈ assemblyComponents cfgDefault, ∀ f ∈ c.features, DadoWidthOk cfgDefault f)
      ∧ (∀ side, slotWidthOf (generateBackPanelDado cfgDefault side)
          = getBackPanelThickness cfgDefault)
      ∧ (∀ p, slotWidthOf (generateHorizontalBackPanelDado cfgDefault p)
          = getBackPanelThickness cfgDefault)
      ∧ (generateInsetBackPanel cfgDefault).materialThickness
          = getBackPanelThickness cfgDefault
      ∧ (∀ side, ∀ f ∈ generateSidePanelFixedShelfDados cfgDefault side,
          slotWidthOf f = fixedShelfThicknessOf cfgDefault)
      ∧ (∀ c ∈ generateFixedShelves cfgDefault,
          c.materialThickness = fixedShelfThicknessOf cfgDefault)
      ∧ (∀ i n : ℕ, ∀ cs ∈ generateDrawerSides cfgDefault i n, ∀ f ∈ cs.features,
          slotWidthOf f = getDrawerBottomThickness cfgDefault)
      ∧ (∀ i n : ℕ, (generateDrawerBottom cfgDefault i n).materialThickness
          = getDrawerBottomThickness cfgDefault)) :=
  ⟨cfgDefault_valid, dadoWidth_c1 cfgDefault cfgDefault_valid⟩

/-- Witness for C8 at the inset-back configuration. -/
theorem insetBackPanel_c8_witness :
    (validateConfig cfgInset).valid = true
    ∧ cfgInset.backPanel.type = .inset
    ∧ (((generateInsetBackPanel cfgInset).dimensions.x
          = cfgInset.globalBounds.w - 2 * cfgInset.material.thickness
            + 2 * backDadoDepthOf cfgInset
        ∧ (generateInsetBackPanel cfgInset).dimensions.y
          = cfgInset.globalBounds.h - 2 * cfgInset.material.thickness
            - toeKickHeightOf cfgInset + 2 * backDadoDepthOf cfgInset)
      ∧ (assemblyComponents cfgInset).filter (fun c => decide (c.role = .back_panel))
          = [generateInsetBackPanel cfgInset]
      ∧ (assemblyComponents cfgInset).filter (fun c => decide (c.role = .side_panel_left))
          = [sidePanelWithFeatures cfgInset .left]
      ∧ (assemblyComponents cfgInset).filter (fun c => decide (c.role = .side_panel_right))
          = [sidePanelWithFeatures cfgInset .right]
      ∧ (assemblyComponents cfgInset).filter (fun c => decide (c.role = .top_panel))
          = [addFeatures (generateTopPanel cfgInset)
              [generateHorizontalBackPanelDado cfgInset .top]]
      ∧ (assemblyComponents cfgInset).filter (fun c => decide (c.role = .bottom_panel))
          = [addFeatures (generateBottomPanel cfgInset)
              [generateHorizontalBackPanelDado cfgInset .bottom]]
      ∧ (∀ side, (sidePanelWithFeatures cfgInset side).features.filter isVerticalDadoSlot
            = [generateBackPanelDado cfgInset side]
        ∧ slotWidthOf (generateBackPanelDado cfgInset side)
            = getBackPanelThickness cfgInset
        ∧ slotDepthOf (generateBackPanelDado cfgInset side) = backDadoDepthOf cfgInset)
      ∧ (∀ tb, (addFeatures (match tb with
              | TopBottom.top => generateTopPanel cfgInset
              | TopBottom.bottom => generateBottomPanel cfgInset)
            [generateHorizontalBackPanelDado cfgInset tb]).features.filter isDadoSlot
            = [generateHorizontalBackPanelDado cfgInset tb]
        ∧ isHorizontalDadoSlot (generateHorizontalBackPanelDado cfgInset tb) = true
        ∧ slotWidthOf (generateHorizontalBackPanelDado cfgInset tb)
            = getBackPanelThickness cfgInset
        ∧ slotDepthOf (generateHorizontalBackPanelDado cfgInset tb)
            = backDadoDepthOf cfgInset)) :=
  ⟨cfgInset_valid, rfl, insetBackPanel_c8 cfgInset cfgInset_valid rfl⟩
